import Mathlib

/-!
Shallow embedding of the core of the `custom_compositor` repository
(Wayland compositor in Rust), covering:

* `crates/vulkan-renderer/src/swapchain.rs` — swapchain creation parameters,
  surface-format selection and `present`;
* `crates/compositor-core/src/session.rs` — the session thread's device
  tracking (`handle_release_device`);
* `crates/compositor-core/src/backend.rs` — DRM backend initialization and
  its seat-activation wait loop;
* `crates/compositor-core/src/surface_manager.rs` — the Wayland-id to
  internal-id mapping and the buffer conversion on commit;
* `crates/vulkan-renderer/src/surface_renderer.rs` — the per-surface
  texture cache;
* `crates/vulkan-renderer/src/compositor_renderer.rs` — per-frame surface
  drawing;
* `crates/compositor-core/src/wayland.rs` — the `CompositorHandler::commit`
  hook (buffer processing and frame-callback dispatch).

Rust `HashMap`s are modelled as association lists with unique keys
(insertion replaces the existing binding); `u32`/`u64` values are `Nat`
(no arithmetic in the modelled code overflows except where an explicit
`% 2 ^ 32` appears, mirroring an `as u32` truncation in the source);
fallible functions return `Except`/`Option`.  Externally visible side
effects (Vulkan resource creation/destruction, uploads, log warnings,
client events) are modelled as an explicit event trace returned alongside
the new state; Vulkan device calls themselves are treated as succeeding,
since their failure is environmental and outside the program logic under
study.  Handles produced by the Vulkan device are modelled by a fresh-name
counter.
-/

namespace Compositor

/-- Events observable from the modelled code: log warnings, Vulkan resource
operations, texture-cache updates, and Wayland client-visible events. -/
inductive Event where
  | warnUnsupportedShmFormat (f : Nat)
  | warnUnsupportedDmabufFormat (f : Nat)
  | errorLoggedBufferProcess
  | destroyImageView (h : Nat)
  | destroyImage (h : Nat)
  | freeMemory (h : Nat)
  | createImage (h : Nat)
  | allocateMemory (h : Nat)
  | createImageView (h : Nat)
  | uploadTextureData (image : Nat) (data : List Nat)
  | storeTexture (sid : Nat)
  | destroyVertexBuffer (h : Nat)
  | createVertexBuffer (h : Nat)
  | storeDescriptorSet (sid : Nat)
  | bindPipeline
  | bindDescriptorSet (h : Nat)
  | pushConstants
  | bindVertexBuffer (h : Nat)
  | draw (sid : Nat) (vertices : Nat)
  | frameCallbackDone (cb : Nat) (time : Nat)
  | presentFrame
  | disconnectClient
  | closeFd (fd : Int)
deriving DecidableEq, Repr

/-- Error type mirroring `compositor_utils::error::CompositorError`
(only the variants the modelled code constructs). -/
inductive CompositorError where
  | wayland (msg : String)
  | backend (msg : String)
  | graphics (msg : String)
  | runtime (msg : String)
deriving DecidableEq, Repr

/-! ## Association lists standing in for `std::collections::HashMap`

`HashMap::insert` replaces any existing binding of the key, `remove`
deletes it, `get` finds it.  Iteration order of a `HashMap` is arbitrary;
the list order of the model stands for whatever order the map happens to
iterate in. -/

/-- `HashMap::get`: the value bound to `k`, if any. -/
def assocFind {β : Type} (l : List (Nat × β)) (k : Nat) : Option β :=
  (l.find? (fun p => p.1 == k)).map Prod.snd

/-- `HashMap::remove`: drop the binding of `k`. -/
def assocErase {β : Type} (l : List (Nat × β)) (k : Nat) : List (Nat × β) :=
  l.filter (fun p => !(p.1 == k))

/-- `HashMap::insert`: bind `k` to `v`, replacing any existing binding. -/
def assocInsert {β : Type} (l : List (Nat × β)) (k : Nat) (v : β) : List (Nat × β) :=
  (k, v) :: assocErase l k

/-- The keys of the map. -/
def assocKeys {β : Type} (l : List (Nat × β)) : List Nat :=
  l.map Prod.fst

theorem assocErase_sublist {β : Type} (l : List (Nat × β)) (k : Nat) :
    (assocErase l k).Sublist l :=
  List.filter_sublist l

theorem assocKeys_nodup_erase {β : Type} {l : List (Nat × β)} (k : Nat)
    (h : (assocKeys l).Nodup) : (assocKeys (assocErase l k)).Nodup :=
  ((assocErase_sublist l k).map Prod.fst).nodup h

theorem not_mem_keys_erase {β : Type} (l : List (Nat × β)) (k : Nat) :
    k ∉ assocKeys (assocErase l k) := by
  intro hmem
  rcases List.mem_map.1 hmem with ⟨p, hp, hfst⟩
  have := List.of_mem_filter hp
  simp [hfst] at this

theorem assocKeys_nodup_insert {β : Type} {l : List (Nat × β)} (k : Nat) (v : β)
    (h : (assocKeys l).Nodup) : (assocKeys (assocInsert l k v)).Nodup := by
  simp only [assocInsert, assocKeys, List.map_cons, List.nodup_cons]
  exact ⟨not_mem_keys_erase l k, assocKeys_nodup_erase k h⟩

theorem assocFind_insert_self {β : Type} (l : List (Nat × β)) (k : Nat) (v : β) :
    assocFind (assocInsert l k v) k = some v := by
  simp [assocFind, assocInsert, List.find?]

/-! ## Swapchain (`crates/vulkan-renderer/src/swapchain.rs`) -/

/-- `ash::vk::Format` values that appear in the modelled code. -/
inductive VkFormat where
  | b8g8r8a8Srgb
  | b8g8r8a8Unorm
  | r8g8b8a8Unorm
  | b8g8r8Unorm
  | r8g8b8Unorm
  | undefined
deriving DecidableEq, Repr

/-- `ash::vk::ColorSpaceKHR` values that appear in the modelled code. -/
inductive ColorSpaceKHR where
  | srgbNonlinear
  | other
deriving DecidableEq, Repr

/-- `ash::vk::SurfaceFormatKHR`. -/
structure SurfaceFormatKHR where
  format : VkFormat
  color_space : ColorSpaceKHR
deriving DecidableEq, Repr

/-- The relevant fields of `ash::vk::SurfaceCapabilitiesKHR`. -/
structure SurfaceCapabilitiesKHR where
  min_image_count : Nat
  max_image_count : Nat
deriving DecidableEq, Repr

/-- `vk::Result::ERROR_OUT_OF_DATE_KHR` and friends: the error side of the
swapchain operations' `Result`. -/
inductive VkError where
  | outOfDate
  | otherError
deriving DecidableEq, Repr

/-- `Swapchain` state: handle, image ring, views, format, extent and the
index recorded by the last `acquire_next_image`. -/
structure Swapchain where
  swapchain : Nat
  images : List Nat
  image_views : List Nat
  format : VkFormat
  extent_width : Nat
  extent_height : Nat
  current_image : Nat
deriving DecidableEq, Repr

namespace Swapchain

/-- `Swapchain::choose_surface_format`: scan the advertised formats for
`B8G8R8A8_SRGB` with `SRGB_NONLINEAR`, else fall back to `formats[0]`.
The source indexes `formats[0]` unconditionally, which panics on an empty
slice; the panic is modelled by `none`. -/
def choose_surface_format (formats : List SurfaceFormatKHR) : Option SurfaceFormatKHR :=
  match formats.find? (fun f =>
      f.format == VkFormat.b8g8r8a8Srgb && f.color_space == ColorSpaceKHR.srgbNonlinear) with
  | some f => some f
  | none => formats.head?

/-- The image count requested by `Swapchain::new` (swapchain.rs lines
52–56): `min_image_count + 1`, clamped to `max_image_count` when the
latter is nonzero and exceeded. -/
def requested_image_count (capabilities : SurfaceCapabilitiesKHR) : Nat :=
  let image_count := capabilities.min_image_count + 1
  if capabilities.max_image_count > 0 && image_count > capabilities.max_image_count then
    capabilities.max_image_count
  else
    image_count

/-- `Swapchain::present` (swapchain.rs lines 180–197): builds a
`PresentInfoKHR` from the current state but performs no queue operation
and unconditionally returns `Ok(())`.  The receiver is `&self`, so the
state is returned unchanged; the empty trace records that no queue
submission happens. -/
def present (s : Swapchain) : Except VkError Unit × Swapchain × List Event :=
  let swapchains := [s.swapchain]
  let image_indices := [s.current_image]
  let _present_info := (1, swapchains, image_indices)
  (Except.ok (), s, [])

end Swapchain

/-! ## Session thread (`crates/compositor-core/src/session.rs`) -/

/-- The device-tracking state owned by `SessionThread`: the map
`device_fds : HashMap<String, i32>` from device path to open file
descriptor.  (The `Seat` handle is opaque and unused by
`handle_release_device`.) -/
structure SessionThread where
  device_fds : List (String × Int)
deriving DecidableEq, Repr

namespace SessionThread

/-- `SessionThread::handle_release_device` (session.rs lines 267–276):
`device_fds.retain(|_, dev_fd| dev_fd != fd)`, then `close(fd)` with the
result ignored, then `Ok(())`.  `SessionManager::release_device` forwards
the request to this handler over the command channel and relays its
reply. -/
def handle_release_device (st : SessionThread) (fd : Int) :
    Except CompositorError Unit × SessionThread × List Event :=
  (Except.ok (),
   { device_fds := st.device_fds.filter (fun p => !(p.2 == fd)) },
   [Event.closeFd fd])

end SessionThread

/-! ## DRM backend initialization (`crates/compositor-core/src/backend.rs`)

`Backend::init_drm_backend` polls the session manager for seat activation:
up to 50 iterations, each calling `dispatch_events(Some(10))` (a dispatch
with a 10 ms timeout) and then, if the seat is still inactive, sleeping a
further 10 ms before the next poll.  The environment is modelled by
`isActive : Nat → Bool`, where `isActive k` is the value
`session_manager.is_active()` reports after the `(k+1)`-th dispatch. -/

/-- Result of the seat-activation wait: number of dispatch calls
performed, the summed dispatch timeouts (ms), the total programmed sleep
(dispatch timeouts plus inter-poll sleeps, ms) and the final
`is_active()` value. -/
structure SeatWaitResult where
  dispatches : Nat
  dispatch_timeout_ms : Nat
  slept_ms : Nat
  active : Bool
deriving DecidableEq, Repr

/-- The `for _ in 0..50` loop of `init_drm_backend` (backend.rs lines
99–106).  `fuel` is the number of iterations remaining and `dispatched`
the number of dispatch calls already made. -/
def seat_wait_loop (isActive : Nat → Bool) : Nat → Nat → SeatWaitResult
  | 0, dispatched => ⟨dispatched, 0, 0, dispatched > 0 && isActive (dispatched - 1)⟩
  | fuel + 1, dispatched =>
      let active := isActive dispatched
      if active then
        ⟨dispatched + 1, 10, 10, true⟩
      else
        let rest := seat_wait_loop isActive fuel (dispatched + 1)
        ⟨rest.dispatches, rest.dispatch_timeout_ms + 10, rest.slept_ms + 20, rest.active⟩

/-- `Backend::init_drm_backend` (backend.rs lines 89–120): run the wait
loop; if the seat is still not active afterwards, return the fatal
backend error, else succeed. -/
def init_drm_backend (isActive : Nat → Bool) : Except CompositorError Unit × SeatWaitResult :=
  let wait := seat_wait_loop isActive 50 0
  if !wait.active then
    (Except.error (CompositorError.backend
      "Failed to activate seat within timeout - compositor cannot access DRM devices"), wait)
  else
    (Except.ok (), wait)

/-! ## Buffer formats (`surface_renderer.rs`, `surface_manager.rs`) -/

/-- `vulkan_renderer::surface_renderer::ShmFormat`. -/
inductive ShmFormat where
  | argb8888
  | xrgb8888
  | rgba8888
  | rgbx8888
deriving DecidableEq, Repr

/-- `vulkan_renderer::surface_renderer::DmaBufFormat`. -/
inductive DmaBufFormat where
  | argb8888
  | xrgb8888
  | rgba8888
  | rgbx8888
deriving DecidableEq, Repr

/-- `wayland_server::protocol::wl_shm::Format`: the four codes the
converter supports plus representatives of the rest of the wire enum
(the converter's wildcard arm). -/
inductive WlShmFormat where
  | argb8888
  | xrgb8888
  | rgba8888
  | rgbx8888
  | rgb565
  | yuyv
deriving DecidableEq, Repr

/-- An arbitrary numeric tag for a wire format, used only inside warning
events. -/
def WlShmFormat.code : WlShmFormat → Nat
  | .argb8888 => 0
  | .xrgb8888 => 1
  | .rgba8888 => 2
  | .rgbx8888 => 3
  | .rgb565 => 4
  | .yuyv => 5

/-- `drm_fourcc::DrmFourcc`: the four codes the converter supports plus
representatives of the rest (the converter's wildcard arm). -/
inductive DrmFourcc where
  | argb8888
  | xrgb8888
  | rgba8888
  | rgbx8888
  | nv12
  | yuyv
deriving DecidableEq, Repr

/-- An arbitrary numeric tag for a fourcc, used only inside warning
events. -/
def DrmFourcc.code : DrmFourcc → Nat
  | .argb8888 => 0
  | .xrgb8888 => 1
  | .rgba8888 => 2
  | .rgbx8888 => 3
  | .nv12 => 4
  | .yuyv => 5

/-- `SurfaceManager::shm_format_to_vulkan` (surface_manager.rs lines
180–187). -/
def shm_format_to_vulkan : ShmFormat → VkFormat
  | .argb8888 => .b8g8r8a8Unorm
  | .xrgb8888 => .b8g8r8a8Unorm
  | .rgba8888 => .r8g8b8a8Unorm
  | .rgbx8888 => .r8g8b8a8Unorm

/-- `SurfaceManager::dmabuf_format_to_vulkan` (surface_manager.rs lines
190–197). -/
def dmabuf_format_to_vulkan : DmaBufFormat → VkFormat
  | .argb8888 => .b8g8r8a8Unorm
  | .xrgb8888 => .b8g8r8a8Unorm
  | .rgba8888 => .r8g8b8a8Unorm
  | .rgbx8888 => .r8g8b8a8Unorm

/-- `vulkan_renderer::SurfaceBuffer`: the converted buffer handed from the
surface manager to the renderer.  Pixel bytes are `List Nat` (one entry
per byte). -/
inductive SurfaceBuffer where
  | shm (data : List Nat) (width height stride : Nat) (format : ShmFormat)
  | dmabuf (width height : Nat) (format : DmaBufFormat) (modifier : Nat) (fd : Int)
deriving DecidableEq, Repr

/-- A `wl_buffer` as the converter inspects it: recognisable as a DMA-BUF,
as an SHM pool buffer, or neither. -/
inductive WaylandBuffer where
  | dmabuf (width height : Nat) (fourcc : DrmFourcc) (modifier : Nat)
  | shm (data : List Nat) (width height stride : Nat) (format : WlShmFormat)
  | unknown
deriving DecidableEq, Repr

/-- `SurfaceManager::convert_wayland_buffer` (surface_manager.rs lines
108–172): DMA-BUF first (unsupported fourcc → warn + `Argb8888` fallback;
the first-plane fd is the placeholder `-1`), then SHM (unsupported wire
format → warn + `Argb8888` fallback, keeping the client bytes), else the
"Unknown buffer type" error. -/
def convert_wayland_buffer (buffer : WaylandBuffer) :
    Except CompositorError SurfaceBuffer × List Event :=
  match buffer with
  | .dmabuf w h fourcc modifier =>
      let (format, log) :=
        match fourcc with
        | .argb8888 => (DmaBufFormat.argb8888, [])
        | .xrgb8888 => (DmaBufFormat.xrgb8888, [])
        | .rgba8888 => (DmaBufFormat.rgba8888, [])
        | .rgbx8888 => (DmaBufFormat.rgbx8888, [])
        | other => (DmaBufFormat.argb8888, [Event.warnUnsupportedDmabufFormat other.code])
      (Except.ok (SurfaceBuffer.dmabuf w h format modifier (-1)), log)
  | .shm data w h stride fmt =>
      let (format, log) :=
        match fmt with
        | .argb8888 => (ShmFormat.argb8888, [])
        | .xrgb8888 => (ShmFormat.xrgb8888, [])
        | .rgba8888 => (ShmFormat.rgba8888, [])
        | .rgbx8888 => (ShmFormat.rgbx8888, [])
        | other => (ShmFormat.argb8888, [Event.warnUnsupportedShmFormat other.code])
      (Except.ok (SurfaceBuffer.shm data w h stride format), log)
  | .unknown =>
      (Except.error (CompositorError.wayland "Unknown buffer type - not SHM or DMA-BUF"), [])

/-! ## Surface texture cache (`crates/vulkan-renderer/src/surface_renderer.rs`) -/

/-- `vulkan_renderer::SurfaceTexture`: GPU image, view, backing memory,
dimensions and format. -/
structure SurfaceTexture where
  image : Nat
  image_view : Nat
  memory : Nat
  width : Nat
  height : Nat
  format : VkFormat
deriving DecidableEq, Repr

/-- `SurfaceRenderer`: the `surface_textures` map keyed by surface id,
plus a fresh-handle counter standing in for the Vulkan device's handle
allocation. -/
structure SurfaceRenderer where
  surface_textures : List (Nat × SurfaceTexture)
  next_handle : Nat
deriving DecidableEq, Repr

namespace SurfaceRenderer

/-- `SurfaceRenderer::cleanup_surface_texture` (surface_renderer.rs lines
513–520): destroy the view, destroy the image, free the memory, in that
order. -/
def cleanup_surface_texture (texture : SurfaceTexture) : List Event :=
  [Event.destroyImageView texture.image_view,
   Event.destroyImage texture.image,
   Event.freeMemory texture.memory]

/-- `SurfaceRenderer::create_texture_image` (surface_renderer.rs lines
178–251): create the image, allocate and bind its memory, create the
view.  Handles are drawn from the fresh-handle counter. -/
def create_texture_image (r : SurfaceRenderer) (width height : Nat) (format : VkFormat) :
    SurfaceTexture × SurfaceRenderer × List Event :=
  let texture : SurfaceTexture :=
    { image := r.next_handle
      memory := r.next_handle + 1
      image_view := r.next_handle + 2
      width := width
      height := height
      format := format }
  (texture,
   { r with next_handle := r.next_handle + 3 },
   [Event.createImage texture.image,
    Event.allocateMemory texture.memory,
    Event.createImageView texture.image_view])

/-- `SurfaceRenderer::update_shm_texture` (surface_renderer.rs lines
125–149): remove and clean up any existing texture for the surface,
convert the SHM format, create a fresh image, upload the client bytes,
then store the new texture under the surface id. -/
def update_shm_texture (r : SurfaceRenderer) (surface_id : Nat) (data : List Nat)
    (width height : Nat) (format : ShmFormat) : SurfaceRenderer × List Event :=
  let (cleanupEvents, textures) :=
    match assocFind r.surface_textures surface_id with
    | some old => (cleanup_surface_texture old, assocErase r.surface_textures surface_id)
    | none => ([], r.surface_textures)
  let vk_format :=
    match format with
    | .argb8888 => VkFormat.b8g8r8a8Unorm
    | .xrgb8888 => VkFormat.b8g8r8a8Unorm
    | .rgba8888 => VkFormat.r8g8b8a8Unorm
    | .rgbx8888 => VkFormat.r8g8b8a8Unorm
  let (texture, r', createEvents) := create_texture_image r width height vk_format
  ({ r' with surface_textures := assocInsert textures surface_id texture },
   cleanupEvents ++ createEvents ++
     [Event.uploadTextureData texture.image data, Event.storeTexture surface_id])

/-- `SurfaceRenderer::update_dmabuf_texture` (surface_renderer.rs lines
152–175): placeholder import that creates a texture, uploads a black
fill, and stores it.  Unlike the SHM path it does not clean up a
previously stored texture; `HashMap::insert` silently replaces it. -/
def update_dmabuf_texture (r : SurfaceRenderer) (surface_id : Nat)
    (width height : Nat) (format : DmaBufFormat) : SurfaceRenderer × List Event :=
  let vk_format :=
    match format with
    | .argb8888 => VkFormat.b8g8r8a8Unorm
    | .xrgb8888 => VkFormat.b8g8r8a8Unorm
    | .rgba8888 => VkFormat.r8g8b8a8Unorm
    | .rgbx8888 => VkFormat.r8g8b8a8Unorm
  let (texture, r', createEvents) := create_texture_image r width height vk_format
  let black_data := List.replicate (width * height * 4) 0
  ({ r' with surface_textures := assocInsert r'.surface_textures surface_id texture },
   createEvents ++
     [Event.uploadTextureData texture.image black_data, Event.storeTexture surface_id])

/-- `SurfaceRenderer::update_surface_texture` (surface_renderer.rs lines
96–108). -/
def update_surface_texture (r : SurfaceRenderer) (surface_id : Nat)
    (buffer : SurfaceBuffer) : SurfaceRenderer × List Event :=
  match buffer with
  | .shm data width height _stride format =>
      update_shm_texture r surface_id data width height format
  | .dmabuf width height format _modifier _fd =>
      update_dmabuf_texture r surface_id width height format

/-- `SurfaceRenderer::remove_surface_texture` (surface_renderer.rs lines
116–122): remove the map entry, if any, and clean up its resources. -/
def remove_surface_texture (r : SurfaceRenderer) (surface_id : Nat) :
    SurfaceRenderer × List Event :=
  match assocFind r.surface_textures surface_id with
  | some texture =>
      ({ r with surface_textures := assocErase r.surface_textures surface_id },
       cleanup_surface_texture texture)
  | none => (r, [])

/-- `SurfaceRenderer::get_all_textures` (surface_renderer.rs lines
523–525): iterate the `surface_textures` map.  The list order models the
`HashMap`'s arbitrary iteration order. -/
def get_all_textures (r : SurfaceRenderer) : List (Nat × SurfaceTexture) :=
  r.surface_textures

end SurfaceRenderer

/-! ## Compositor renderer (`crates/vulkan-renderer/src/compositor_renderer.rs`) -/

/-- `CompositorRenderer`: the surface renderer plus per-surface vertex
buffers and descriptor sets (both keyed by surface id), the optional
surface pipeline, and the optional descriptor pool (both are `None` until
`initialize_swapchain` creates them; their presence is what matters here,
so they are modelled as `Bool`).  Vertex-buffer and descriptor-set
handles are drawn from a second fresh-handle counter. -/
structure CompositorRenderer where
  surface_renderer : SurfaceRenderer
  vertex_buffers : List (Nat × Nat)
  descriptor_sets : List (Nat × Nat)
  surface_pipeline : Bool
  descriptor_pool : Bool
  next_object : Nat
deriving DecidableEq, Repr

namespace CompositorRenderer

/-- `CompositorRenderer::update_surface_vertex_buffer`
(compositor_renderer.rs lines 479–564): destroy any previous vertex
buffer for the surface, create a fresh one sized for the surface quad,
and store it. -/
def update_surface_vertex_buffer (c : CompositorRenderer) (surface_id : Nat)
    (_width _height : Nat) : CompositorRenderer × List Event :=
  let (destroyEvents, buffers) :=
    match assocFind c.vertex_buffers surface_id with
    | some old => ([Event.destroyVertexBuffer old], assocErase c.vertex_buffers surface_id)
    | none => ([], c.vertex_buffers)
  let handle := c.next_object
  ({ c with
      vertex_buffers := assocInsert buffers surface_id handle
      next_object := c.next_object + 1 },
   destroyEvents ++ [Event.createVertexBuffer handle])

/-- `CompositorRenderer::update_surface_descriptor_set`
(compositor_renderer.rs lines 567–620): requires, in order, the surface's
texture (`ok_or("Surface texture not found")?`), the descriptor pool
(`ok_or("Descriptor pool not initialized")?`) and the surface pipeline
(`ok_or("Surface pipeline not initialized")?`); then allocates a
descriptor set pointing at the texture's view and stores it under the
surface id (replacing any previous binding). -/
def update_surface_descriptor_set (c : CompositorRenderer) (surface_id : Nat) :
    Except CompositorError (CompositorRenderer × List Event) :=
  match assocFind c.surface_renderer.surface_textures surface_id with
  | none => Except.error (CompositorError.runtime "Surface texture not found")
  | some _texture =>
      if !c.descriptor_pool then
        Except.error (CompositorError.runtime "Descriptor pool not initialized")
      else if !c.surface_pipeline then
        Except.error (CompositorError.runtime "Surface pipeline not initialized")
      else
        let handle := c.next_object
        Except.ok
          ({ c with
              descriptor_sets := assocInsert c.descriptor_sets surface_id handle
              next_object := c.next_object + 1 },
           [Event.storeDescriptorSet surface_id])

/-- `CompositorRenderer::update_surface_texture` (compositor_renderer.rs
lines 140–178): map the Vulkan format back to an `ShmFormat` (wildcard
falls back to `Argb8888`), wrap the bytes in a `SurfaceBuffer::Shm` with
stride `width * 4`, update the texture, then refresh the surface's vertex
buffer and descriptor set. -/
def update_surface_texture (c : CompositorRenderer) (surface_id : Nat)
    (buffer_data : List Nat) (width height : Nat) (format : VkFormat) :
    Except CompositorError (CompositorRenderer × List Event) :=
  let shm_format :=
    match format with
    | .b8g8r8a8Unorm => ShmFormat.argb8888
    | .b8g8r8Unorm => ShmFormat.xrgb8888
    | .r8g8b8a8Unorm => ShmFormat.rgba8888
    | .r8g8b8Unorm => ShmFormat.rgbx8888
    | _ => ShmFormat.argb8888
  let surface_buffer := SurfaceBuffer.shm buffer_data width height (width * 4) shm_format
  let (sr, texEvents) :=
    SurfaceRenderer.update_surface_texture c.surface_renderer surface_id surface_buffer
  let c1 := { c with surface_renderer := sr }
  let (c2, vbEvents) := update_surface_vertex_buffer c1 surface_id width height
  match update_surface_descriptor_set c2 surface_id with
  | Except.error e => Except.error e
  | Except.ok (c3, dsEvents) => Except.ok (c3, texEvents ++ vbEvents ++ dsEvents)

/-- `CompositorRenderer::remove_surface` (compositor_renderer.rs lines
181–202): evict the texture, destroy the vertex buffer, drop the
descriptor set. -/
def remove_surface (c : CompositorRenderer) (surface_id : Nat) :
    CompositorRenderer × List Event :=
  let (sr, texEvents) := SurfaceRenderer.remove_surface_texture c.surface_renderer surface_id
  let (vbEvents, buffers) :=
    match assocFind c.vertex_buffers surface_id with
    | some old => ([Event.destroyVertexBuffer old], assocErase c.vertex_buffers surface_id)
    | none => ([], c.vertex_buffers)
  ({ c with
      surface_renderer := sr
      vertex_buffers := buffers
      descriptor_sets := assocErase c.descriptor_sets surface_id },
   texEvents ++ vbEvents)

/-- `CompositorRenderer::render_surface` (compositor_renderer.rs lines
419–476): look up the surface's vertex buffer and descriptor set (errors
if either is missing), bind the descriptor set, push constants, bind the
vertex buffer and draw six vertices.  The surface id is recorded on the
draw event for observability. -/
def render_surface (c : CompositorRenderer) (surface_id : Nat) :
    Except CompositorError (List Event) :=
  match assocFind c.vertex_buffers surface_id with
  | none => Except.error (CompositorError.runtime "Missing vertex buffer for surface")
  | some vb =>
      match assocFind c.descriptor_sets surface_id with
      | none => Except.error (CompositorError.runtime "Missing descriptor set for surface")
      | some ds =>
          Except.ok
            [Event.bindDescriptorSet ds, Event.pushConstants,
             Event.bindVertexBuffer vb, Event.draw surface_id 6]

/-- The `for (surface_id, texture) in ... get_all_textures()` loop of
`render_surfaces`, with `?`-propagation of `render_surface` errors. -/
def render_surfaces_loop (c : CompositorRenderer) :
    List (Nat × SurfaceTexture) → Except CompositorError (List Event)
  | [] => Except.ok []
  | (surface_id, _texture) :: rest =>
      match render_surface c surface_id with
      | Except.error e => Except.error e
      | Except.ok events =>
          match render_surfaces_loop c rest with
          | Except.error e => Except.error e
          | Except.ok eventsRest => Except.ok (events ++ eventsRest)

/-- `CompositorRenderer::render_surfaces` (compositor_renderer.rs lines
397–416): require the pipeline, bind it once, then draw every entry of
the texture cache in the cache's iteration order. -/
def render_surfaces (c : CompositorRenderer) : Except CompositorError (List Event) :=
  if !c.surface_pipeline then
    Except.error (CompositorError.runtime "Surface pipeline not initialized")
  else
    match render_surfaces_loop c (SurfaceRenderer.get_all_textures c.surface_renderer) with
    | Except.error e => Except.error e
    | Except.ok events => Except.ok (Event.bindPipeline :: events)

end CompositorRenderer

/-- The surface ids drawn by a command trace, in drawing order. -/
def drawOrder (events : List Event) : List Nat :=
  events.filterMap (fun e =>
    match e with
    | Event.draw sid _ => some sid
    | _ => none)

/-! ## Surface manager (`crates/compositor-core/src/surface_manager.rs`) -/

/-- `SurfaceManager`: the optional renderer connection, the map from
Wayland surface id (u64) to internal surface id (u32), and the next
internal id to hand out. -/
structure SurfaceManager where
  renderer : Option CompositorRenderer
  surface_mapping : List (Nat × Nat)
  next_surface_id : Nat
deriving DecidableEq, Repr

namespace SurfaceManager

/-- `SurfaceManager::new` (surface_manager.rs lines 26–34). -/
def new : SurfaceManager :=
  { renderer := none, surface_mapping := [], next_surface_id := 1 }

/-- `SurfaceManager::register_surface` (surface_manager.rs lines 43–51):
hand out `next_surface_id`, bump the counter, and record the mapping. -/
def register_surface (m : SurfaceManager) (wayland_surface_id : Nat) :
    Nat × SurfaceManager :=
  let surface_id := m.next_surface_id
  (surface_id,
   { m with
      next_surface_id := surface_id + 1
      surface_mapping := assocInsert m.surface_mapping wayland_surface_id surface_id })

/-- `SurfaceManager::handle_surface_commit` (surface_manager.rs lines
54–92): resolve (or auto-register) the internal id, convert the buffer,
and — when a renderer is connected — feed the converted pixels to
`VulkanRenderer::update_surface_buffer` (which forwards to
`CompositorRenderer::update_surface_texture`).  For DMA-BUF buffers a
zero-filled placeholder of `width * height * 4` bytes is uploaded in
place of the (unimported) dmabuf contents.  Conversion errors propagate
(`?`); the model treats the mutex lock as always succeeding, as both
users run on the reactor thread. -/
def handle_surface_commit (m : SurfaceManager) (wayland_surface_id : Nat)
    (buffer : WaylandBuffer) :
    Except CompositorError Unit × SurfaceManager × List Event :=
  let (surface_id, m1) :=
    match assocFind m.surface_mapping wayland_surface_id with
    | some id => (id, m)
    | none => register_surface m wayland_surface_id
  match convert_wayland_buffer buffer with
  | (Except.error e, log) => (Except.error e, m1, log)
  | (Except.ok surface_buffer, log) =>
      match m1.renderer with
      | none => (Except.ok (), m1, log)
      | some renderer =>
          let step :=
            match surface_buffer with
            | .shm data width height _stride format =>
                let vk_format := shm_format_to_vulkan format
                CompositorRenderer.update_surface_texture renderer surface_id data
                  width height vk_format
            | .dmabuf width height format _modifier _fd =>
                let vk_format := dmabuf_format_to_vulkan format
                let empty_data := List.replicate (width * height * 4) 0
                CompositorRenderer.update_surface_texture renderer surface_id empty_data
                  width height vk_format
          match step with
          | Except.error e => (Except.error e, m1, log)
          | Except.ok (renderer', gpuEvents) =>
              (Except.ok (), { m1 with renderer := some renderer' }, log ++ gpuEvents)

/-- `SurfaceManager::remove_surface` (surface_manager.rs lines 95–105):
drop the mapping entry and, when present, evict the surface from the
renderer. -/
def remove_surface (m : SurfaceManager) (wayland_surface_id : Nat) :
    Except CompositorError Unit × SurfaceManager × List Event :=
  match assocFind m.surface_mapping wayland_surface_id with
  | none => (Except.ok (), m, [])
  | some surface_id =>
      let mapping := assocErase m.surface_mapping wayland_surface_id
      match m.renderer with
      | none => (Except.ok (), { m with surface_mapping := mapping }, [])
      | some renderer =>
          let (renderer', events) := CompositorRenderer.remove_surface renderer surface_id
          (Except.ok (),
           { m with surface_mapping := mapping, renderer := some renderer' },
           events)

end SurfaceManager

/-! ## The commit hook (`crates/compositor-core/src/wayland.rs`) -/

/-- `smithay::wayland::compositor::BufferAssignment`. -/
inductive BufferAssignment where
  | newBuffer (buffer : WaylandBuffer)
  | removed
deriving DecidableEq, Repr

/-- The pending `SurfaceAttributes` read by the commit hook: the buffer
assignment, the damage list (rectangles are irrelevant to the modelled
behaviour and are represented by ids), and the queued frame callbacks. -/
structure SurfaceAttributes where
  buffer : Option BufferAssignment
  damage : List Nat
  frame_callbacks : List Nat
deriving DecidableEq, Repr

/-- The slice of `WaylandServerState` the commit hook touches: the
surface manager and the monotonic clock (milliseconds). -/
structure WaylandServerState where
  surface_manager : SurfaceManager
  clock_ms : Nat
deriving DecidableEq, Repr

namespace WaylandServerState

/-- `CompositorHandler::commit` (wayland.rs lines 1449–1538).  When the
pending state carries a buffer assignment: a new buffer is routed through
the surface manager (failures are logged, not propagated, and the client
is not disconnected), a removal is ignored, damage is only logged — and
each queued frame callback is completed immediately with the current
monotonic time truncated to 32 bits ("For now, fire callback immediately
to maintain client responsiveness").  Without a buffer assignment the
commit is a state-only update.  `space.refresh()` touches no state
modelled here. -/
def commit (st : WaylandServerState) (wayland_surface_id : Nat)
    (pending : SurfaceAttributes) : WaylandServerState × List Event :=
  match pending.buffer with
  | some assignment =>
      let (st1, bufferEvents) :=
        match assignment with
        | .newBuffer wl_buffer =>
            match SurfaceManager.handle_surface_commit st.surface_manager
                wayland_surface_id wl_buffer with
            | (Except.error _e, m', events) =>
                ({ st with surface_manager := m' }, events ++ [Event.errorLoggedBufferProcess])
            | (Except.ok _, m', events) =>
                ({ st with surface_manager := m' }, events)
        | .removed => (st, [])
      let time := st.clock_ms % 2 ^ 32
      let callbackEvents :=
        pending.frame_callbacks.map (fun cb => Event.frameCallbackDone cb time)
      (st1, bufferEvents ++ callbackEvents)
  | none => (st, [])

end WaylandServerState

/-! ## Invariants and claim-level predicates -/

/-- The invariant claimed for the surface manager's id mapping: keys are
unique (a property of the `HashMap`), the mapping is injective (distinct
Wayland ids map to distinct internal ids), and `next_surface_id` is
strictly greater than every internal id currently assigned. -/
def SurfaceManager.MappingInv (m : SurfaceManager) : Prop :=
  (assocKeys m.surface_mapping).Nodup ∧
  (m.surface_mapping.map Prod.snd).Nodup ∧
  ∀ p ∈ m.surface_mapping, p.2 < m.next_surface_id

/-- The texture cache holds at most one texture per surface id. -/
def SurfaceRenderer.UniqueTextures (r : SurfaceRenderer) : Prop :=
  (assocKeys r.surface_textures).Nodup

/-- Any renderer the surface manager is connected to has completed
`initialize_swapchain`: its surface pipeline and descriptor pool exist.
(Holds vacuously while no renderer is connected.)  Outside this steady
state a commit's renderer update can fail with "Descriptor pool not
initialized" or "Surface pipeline not initialized", and that failure
propagates out of `handle_surface_commit` via `?`. -/
def SurfaceManager.RendererReady (m : SurfaceManager) : Prop :=
  ∀ renderer, m.renderer = some renderer →
    renderer.descriptor_pool = true ∧ renderer.surface_pipeline = true

/-- The four SHM wire formats with explicit arms in
`convert_wayland_buffer`; every other wire format hits the wildcard
fallback. -/
def WlShmFormat.supported : WlShmFormat → Bool
  | .argb8888 => true
  | .xrgb8888 => true
  | .rgba8888 => true
  | .rgbx8888 => true
  | _ => false

/-- The four DRM fourccs with explicit arms in `convert_wayland_buffer`;
every other fourcc hits the wildcard fallback. -/
def DrmFourcc.supported : DrmFourcc → Bool
  | .argb8888 => true
  | .xrgb8888 => true
  | .rgba8888 => true
  | .rgbx8888 => true
  | _ => false

/-- Classifies the events the buffer-processing path can produce (log
warnings and GPU/cache operations) as distinct from client-visible or
frame-level events (frame callbacks, presentation, disconnection, the
commit hook's error log, fd closing). -/
def Event.is_internal : Event → Bool
  | .frameCallbackDone _ _ => false
  | .presentFrame => false
  | .disconnectClient => false
  | .errorLoggedBufferProcess => false
  | .closeFd _ => false
  | _ => true

/-- Whether an event is compatible with "every texture upload is a black
fill": any upload must carry all-zero bytes. -/
def is_black_fill_upload : Event → Bool
  | .uploadTextureData _ data => data.all (fun b => b == 0)
  | _ => true

/-- Whether every texture upload in a trace is a black fill. -/
def uploads_only_black (events : List Event) : Bool :=
  events.all is_black_fill_upload

/-- The property claimed of the renderer: drawing a frame succeeds and
draws the surfaces in the order of a back-to-front spatial layout
(windows without a cached texture filtered out). -/
def drawsLayoutBackToFront (c : CompositorRenderer) (layout : List Nat) : Prop :=
  ∃ events, CompositorRenderer.render_surfaces c = Except.ok events ∧
    drawOrder events = layout.filter
      (fun sid => (assocFind c.surface_renderer.surface_textures sid).isSome)

/-! ## Concrete states used by counterexamples and witnesses -/

/-- A compositor renderer in its steady state after
`initialize_swapchain` (empty caches, pipeline and descriptor pool
created), with handle counters at zero. -/
def initialRenderer : CompositorRenderer :=
  { surface_renderer := { surface_textures := [], next_handle := 0 }
    vertex_buffers := []
    descriptor_sets := []
    surface_pipeline := true
    descriptor_pool := true
    next_object := 0 }

/-- The renderer after surface 1 and then surface 2 each commit a 1×1
`ARGB8888` buffer (the commit path always lands in the SHM update). -/
def rendererAfterTwoCommits : CompositorRenderer :=
  match CompositorRenderer.update_surface_texture initialRenderer 1 [0, 0, 0, 0] 1 1
      VkFormat.b8g8r8a8Unorm with
  | Except.error _ => initialRenderer
  | Except.ok (c1, _) =>
      match CompositorRenderer.update_surface_texture c1 2 [0, 0, 0, 0] 1 1
          VkFormat.b8g8r8a8Unorm with
      | Except.error _ => c1
      | Except.ok (c2, _) => c2

/-- A server state whose surface manager is connected to the fresh
renderer: no surfaces registered yet, clock at 1000 ms. -/
def serverState0 : WaylandServerState :=
  { surface_manager :=
      { renderer := some initialRenderer, surface_mapping := [], next_surface_id := 1 }
    clock_ms := 1000 }

/-- A pending commit attaching a 1×1 SHM buffer whose wire format
`RGB565` is not among the four supported formats and whose bytes are not
black. -/
def pendingUnsupportedShm : SurfaceAttributes :=
  { buffer := some (BufferAssignment.newBuffer
      (WaylandBuffer.shm [255, 0, 255, 255] 1 1 4 WlShmFormat.rgb565))
    damage := []
    frame_callbacks := [] }

/-- A pending commit attaching a supported 1×1 SHM buffer with one queued
frame callback (id 42). -/
def pendingWithCallback : SurfaceAttributes :=
  { buffer := some (BufferAssignment.newBuffer
      (WaylandBuffer.shm [0, 255, 0, 255] 1 1 4 WlShmFormat.argb8888))
    damage := []
    frame_callbacks := [42] }

/-! ## Theorems -/

/-- C5: `Swapchain::new` requests `min_image_count + 1` images, clamped to
`max_image_count` when the latter is nonzero and would be exceeded. -/
theorem swapchain_requested_image_count_spec (capabilities : SurfaceCapabilitiesKHR) :
    (capabilities.max_image_count = 0 ∨
        capabilities.min_image_count + 1 ≤ capabilities.max_image_count →
      Swapchain.requested_image_count capabilities = capabilities.min_image_count + 1) ∧
    (0 < capabilities.max_image_count ∧
        capabilities.max_image_count < capabilities.min_image_count + 1 →
      Swapchain.requested_image_count capabilities = capabilities.max_image_count) := by
  constructor
  · intro h
    simp only [Swapchain.requested_image_count]
    split
    · rename_i hcond
      simp only [Bool.and_eq_true, decide_eq_true_eq] at hcond
      omega
    · rfl
  · intro h
    simp only [Swapchain.requested_image_count]
    split
    · rfl
    · rename_i hcond
      simp only [Bool.and_eq_true, decide_eq_true_eq, not_and] at hcond
      omega

/-- C5 witness: a surface with `min_image_count = 2` and no maximum yields
a request for 3 images; one with `max_image_count = 2` is clamped to 2. -/
theorem swapchain_requested_image_count_spec_witness :
    Swapchain.requested_image_count ⟨2, 0⟩ = 3 ∧
    Swapchain.requested_image_count ⟨2, 2⟩ = 2 :=
  ⟨(swapchain_requested_image_count_spec ⟨2, 0⟩).1 (Or.inl rfl),
   (swapchain_requested_image_count_spec ⟨2, 2⟩).2 (by constructor <;> decide)⟩

/-- C8: `Swapchain::present` always returns `Ok(())` (in particular never
the out-of-date error), leaves every field of the swapchain unchanged,
and submits no presentation work to any queue. -/
theorem swapchain_present_noop_spec (s : Swapchain) :
    (Swapchain.present s).1 = Except.ok () ∧
    (Swapchain.present s).1 ≠ Except.error VkError.outOfDate ∧
    (Swapchain.present s).2.1.swapchain = s.swapchain ∧
    (Swapchain.present s).2.1.images = s.images ∧
    (Swapchain.present s).2.1.image_views = s.image_views ∧
    (Swapchain.present s).2.1.format = s.format ∧
    (Swapchain.present s).2.1.extent_width = s.extent_width ∧
    (Swapchain.present s).2.1.extent_height = s.extent_height ∧
    (Swapchain.present s).2.1.current_image = s.current_image ∧
    (Swapchain.present s).2.2 = [] := by
  refine ⟨rfl, ?_, rfl, rfl, rfl, rfl, rfl, rfl, rfl, rfl⟩
  simp [Swapchain.present]

/-- C9: `choose_surface_format` indexes `formats[0]` in its fallback arm,
so on the empty list it panics (modelled `none`); on a non-empty list it
returns a member of the list — the first `B8G8R8A8_SRGB`/`SRGB_NONLINEAR`
entry when one exists, otherwise the first element. -/
theorem choose_surface_format_spec :
    Swapchain.choose_surface_format [] = none ∧
    ∀ formats : List SurfaceFormatKHR, formats ≠ [] →
      ∃ f, Swapchain.choose_surface_format formats = some f ∧ f ∈ formats ∧
        ((f.format = VkFormat.b8g8r8a8Srgb ∧ f.color_space = ColorSpaceKHR.srgbNonlinear) ∨
         ((∀ g ∈ formats, ¬(g.format = VkFormat.b8g8r8a8Srgb ∧
             g.color_space = ColorSpaceKHR.srgbNonlinear)) ∧
          formats.head? = some f)) := by
  refine ⟨rfl, ?_⟩
  intro formats hne
  unfold Swapchain.choose_surface_format
  cases hfind : formats.find? (fun f =>
      f.format == VkFormat.b8g8r8a8Srgb && f.color_space == ColorSpaceKHR.srgbNonlinear) with
  | some f =>
      refine ⟨f, rfl, List.mem_of_find?_eq_some hfind, Or.inl ?_⟩
      have hp := List.find?_some hfind
      simp only [Bool.and_eq_true, beq_iff_eq] at hp
      exact hp
  | none =>
      rcases List.exists_mem_of_ne_nil formats hne with ⟨a, _⟩
      cases formats with
      | nil => exact absurd rfl hne
      | cons x xs =>
          refine ⟨x, rfl, List.mem_cons_self x xs, Or.inr ⟨?_, rfl⟩⟩
          intro g hg hgp
          have := List.find?_eq_none.1 hfind g hg
          simp only [Bool.and_eq_true, beq_iff_eq] at this
          exact this ⟨hgp.1, hgp.2⟩

/-- C9 witness: on a one-element list without the preferred format, the
first element is chosen; the empty list yields the panic case. -/
theorem choose_surface_format_spec_witness :
    ∃ f, Swapchain.choose_surface_format
        [⟨VkFormat.b8g8r8a8Unorm, ColorSpaceKHR.srgbNonlinear⟩] = some f ∧
      f ∈ [(⟨VkFormat.b8g8r8a8Unorm, ColorSpaceKHR.srgbNonlinear⟩ : SurfaceFormatKHR)] ∧
      ((f.format = VkFormat.b8g8r8a8Srgb ∧ f.color_space = ColorSpaceKHR.srgbNonlinear) ∨
       ((∀ g ∈ [(⟨VkFormat.b8g8r8a8Unorm, ColorSpaceKHR.srgbNonlinear⟩ : SurfaceFormatKHR)],
           ¬(g.format = VkFormat.b8g8r8a8Srgb ∧ g.color_space = ColorSpaceKHR.srgbNonlinear)) ∧
        [(⟨VkFormat.b8g8r8a8Unorm, ColorSpaceKHR.srgbNonlinear⟩ : SurfaceFormatKHR)].head? =
          some f)) :=
  choose_surface_format_spec.2
    [⟨VkFormat.b8g8r8a8Unorm, ColorSpaceKHR.srgbNonlinear⟩] (by decide)

/-- Filtering twice with the same predicate equals filtering once. -/
theorem filter_twice {α : Type} (p : α → Bool) (l : List α) :
    (l.filter p).filter p = l.filter p := by
  induction l with
  | nil => rfl
  | cons a t ih =>
      by_cases h : p a
      · simp [List.filter, h, ih]
      · simp [List.filter, h, ih]

/-- C7: `release_device` is idempotent — the first call returns ok and a
second call on the same fd returns ok again and leaves the session
thread's device-tracking map exactly as the first call left it. -/
theorem handle_release_device_idempotent (st : SessionThread) (fd : Int) :
    (SessionThread.handle_release_device st fd).1 = Except.ok () ∧
    (SessionThread.handle_release_device
        (SessionThread.handle_release_device st fd).2.1 fd).1 = Except.ok () ∧
    (SessionThread.handle_release_device
        (SessionThread.handle_release_device st fd).2.1 fd).2.1 =
      (SessionThread.handle_release_device st fd).2.1 := by
  refine ⟨rfl, rfl, ?_⟩
  simp only [SessionThread.handle_release_device]
  exact congrArg SessionThread.mk (filter_twice _ st.device_fds)

theorem seat_wait_loop_dispatches_le (isActive : Nat → Bool) :
    ∀ fuel dispatched,
      (seat_wait_loop isActive fuel dispatched).dispatches ≤ dispatched + fuel := by
  intro fuel
  induction fuel with
  | zero => intro dispatched; simp [seat_wait_loop]
  | succ n ih =>
      intro dispatched
      simp only [seat_wait_loop]
      split
      · simp
      · have := ih (dispatched + 1)
        simpa using Nat.le_trans this (by omega)

theorem seat_wait_loop_timeout_le (isActive : Nat → Bool) :
    ∀ fuel dispatched,
      (seat_wait_loop isActive fuel dispatched).dispatch_timeout_ms ≤ 10 * fuel := by
  intro fuel
  induction fuel with
  | zero => intro dispatched; simp [seat_wait_loop]
  | succ n ih =>
      intro dispatched
      simp only [seat_wait_loop]
      split
      · simp
      · have := ih (dispatched + 1)
        show (seat_wait_loop isActive n (dispatched + 1)).dispatch_timeout_ms + 10 ≤
          10 * (n + 1)
        omega

theorem seat_wait_loop_inactive (isActive : Nat → Bool) :
    ∀ fuel dispatched,
      (∀ k, k < dispatched + fuel → isActive k = false) →
      (seat_wait_loop isActive fuel dispatched).active = false := by
  intro fuel
  induction fuel with
  | zero =>
      intro dispatched h
      simp only [seat_wait_loop]
      cases hd : dispatched with
      | zero => simp
      | succ n =>
          have := h n (by omega)
          simp [this]
  | succ n ih =>
      intro dispatched h
      have hfalse : isActive dispatched = false := h dispatched (by omega)
      simp only [seat_wait_loop, hfalse]
      exact ih (dispatched + 1) (fun k hk => h k (by omega))

/-- C6: DRM backend initialization waits for seat activation with a
bounded poll loop — at most 50 dispatch calls, each with a 10 ms dispatch
timeout (a 500 ms timeout budget in total) — and, when the seat has not
become active by the time the loop is exhausted, returns the fatal
backend error instead of waiting further. -/
theorem init_drm_backend_bounded_timeout (isActive : Nat → Bool) :
    (init_drm_backend isActive).2.dispatches ≤ 50 ∧
    (init_drm_backend isActive).2.dispatch_timeout_ms ≤ 500 ∧
    ((∀ k, k < 50 → isActive k = false) →
      (init_drm_backend isActive).1 = Except.error (CompositorError.backend
        "Failed to activate seat within timeout - compositor cannot access DRM devices")) := by
  have hwait2 := seat_wait_loop_timeout_le isActive 50 0
  have hwait1 := seat_wait_loop_dispatches_le isActive 50 0
  refine ⟨?_, ?_, ?_⟩
  · simp only [init_drm_backend]
    split <;> simpa using hwait1
  · simp only [init_drm_backend]
    split <;> simpa using hwait2
  · intro h
    have hactive : (seat_wait_loop isActive 50 0).active = false :=
      seat_wait_loop_inactive isActive 50 0 (fun k hk => h k (by omega))
    simp [init_drm_backend, hactive]

/-- C6 witness: with a seat that never activates, initialization returns
the fatal backend error. -/
theorem init_drm_backend_bounded_timeout_witness :
    (init_drm_backend (fun _ => false)).1 = Except.error (CompositorError.backend
      "Failed to activate seat within timeout - compositor cannot access DRM devices") :=
  (init_drm_backend_bounded_timeout (fun _ => false)).2.2 (fun _ _ => rfl)

theorem values_nodup_erase {β : Type} {l : List (Nat × β)} (k : Nat)
    (h : (l.map Prod.snd).Nodup) : ((assocErase l k).map Prod.snd).Nodup :=
  ((assocErase_sublist l k).map Prod.snd).nodup h

theorem mem_of_mem_erase {β : Type} {l : List (Nat × β)} {k : Nat} {p : Nat × β}
    (h : p ∈ assocErase l k) : p ∈ l :=
  (assocErase_sublist l k).subset h

/-- `register_surface` preserves the mapping invariant, hands out exactly
`next_surface_id`, and strictly increases the counter. -/
theorem register_surface_inv (m : SurfaceManager) (wid : Nat) (h : m.MappingInv) :
    (SurfaceManager.register_surface m wid).2.MappingInv ∧
    (SurfaceManager.register_surface m wid).1 = m.next_surface_id ∧
    m.next_surface_id < (SurfaceManager.register_surface m wid).2.next_surface_id := by
  obtain ⟨hk, hv, hb⟩ := h
  refine ⟨⟨?_, ?_, ?_⟩, rfl, by simp [SurfaceManager.register_surface]⟩
  · exact assocKeys_nodup_insert wid m.next_surface_id hk
  · simp only [SurfaceManager.register_surface, assocInsert, List.map_cons, List.nodup_cons]
    refine ⟨?_, values_nodup_erase wid hv⟩
    intro hmem
    rcases List.mem_map.1 hmem with ⟨p, hp, hsnd⟩
    have := hb p (mem_of_mem_erase hp)
    omega
  · intro p hp
    simp only [SurfaceManager.register_surface, assocInsert, List.mem_cons] at hp
    rcases hp with rfl | hp
    · simp [SurfaceManager.register_surface]
    · have := hb p (mem_of_mem_erase hp)
      simp only [SurfaceManager.register_surface]
      omega

/-- `remove_surface` preserves the mapping invariant. -/
theorem remove_surface_inv (m : SurfaceManager) (wid : Nat) (h : m.MappingInv) :
    ((SurfaceManager.remove_surface m wid).2.1).MappingInv := by
  obtain ⟨hk, hv, hb⟩ := h
  unfold SurfaceManager.remove_surface
  have hinv : ∀ next renderer,
      (SurfaceManager.MappingInv
        { renderer := renderer, surface_mapping := assocErase m.surface_mapping wid,
          next_surface_id := next }) ↔
      ((assocKeys (assocErase m.surface_mapping wid)).Nodup ∧
       ((assocErase m.surface_mapping wid).map Prod.snd).Nodup ∧
       ∀ p ∈ assocErase m.surface_mapping wid, p.2 < next) := by
    intro next renderer
    constructor <;> exact fun x => x
  cases hfind : assocFind m.surface_mapping wid with
  | none => exact ⟨hk, hv, hb⟩
  | some sid =>
      cases hrend : m.renderer with
      | none =>
          refine ⟨assocKeys_nodup_erase wid hk, values_nodup_erase wid hv, ?_⟩
          intro p hp
          exact hb p (mem_of_mem_erase hp)
      | some renderer =>
          refine ⟨assocKeys_nodup_erase wid hk, values_nodup_erase wid hv, ?_⟩
          intro p hp
          exact hb p (mem_of_mem_erase hp)

/-- The SHM update stores, under the committed surface id, a fresh
texture of the requested dimensions and converted format; any previous
binding of the id is erased first. -/
theorem update_shm_texture_textures (r : SurfaceRenderer) (sid : Nat) (data : List Nat)
    (w h : Nat) (f : ShmFormat) :
    ((SurfaceRenderer.update_shm_texture r sid data w h f).1).surface_textures =
      assocInsert
        (match assocFind r.surface_textures sid with
         | some _ => assocErase r.surface_textures sid
         | none => r.surface_textures)
        sid
        ⟨r.next_handle, r.next_handle + 2, r.next_handle + 1, w, h,
          shm_format_to_vulkan f⟩ := by
  cases hfind : assocFind r.surface_textures sid <;> cases f <;>
    simp [SurfaceRenderer.update_shm_texture, SurfaceRenderer.create_texture_image,
      hfind, shm_format_to_vulkan]

/-- `CompositorRenderer::update_surface_texture` on a renderer whose
descriptor pool and surface pipeline exist never fails: the
descriptor-set refresh happens right after the texture is (re)stored, so
its texture lookup always succeeds and its two initialization checks
pass.  (On a renderer that has not completed `initialize_swapchain`, the
descriptor-set refresh fails and the error propagates.) -/
theorem update_surface_texture_isOk (c : CompositorRenderer) (sid : Nat)
    (data : List Nat) (w h : Nat) (f : VkFormat)
    (hdp : c.descriptor_pool = true) (hsp : c.surface_pipeline = true) :
    (CompositorRenderer.update_surface_texture c sid data w h f).isOk = true := by
  unfold CompositorRenderer.update_surface_texture
  cases f <;>
    · simp only [SurfaceRenderer.update_surface_texture]
      cases hvb : assocFind c.vertex_buffers sid <;>
        simp [CompositorRenderer.update_surface_vertex_buffer,
          CompositorRenderer.update_surface_descriptor_set, hvb, hdp, hsp,
          update_shm_texture_textures, assocFind_insert_self, Except.isOk,
          Except.toBool]

theorem register_surface_renderer (m : SurfaceManager) (wid : Nat) :
    (SurfaceManager.register_surface m wid).2.renderer = m.renderer := rfl

/-- What `handle_surface_commit` does to the mapping state: the mapping
and counter are those of the (possibly auto-registered) manager,
regardless of how buffer conversion or the renderer update turn out. -/
theorem handle_surface_commit_cases (m : SurfaceManager) (wid : Nat) (buf : WaylandBuffer) :
    (SurfaceManager.handle_surface_commit m wid buf).2.1.surface_mapping =
      (match assocFind m.surface_mapping wid with
       | some _ => m.surface_mapping
       | none => (SurfaceManager.register_surface m wid).2.surface_mapping) ∧
    (SurfaceManager.handle_surface_commit m wid buf).2.1.next_surface_id =
      (match assocFind m.surface_mapping wid with
       | some _ => m.next_surface_id
       | none => (SurfaceManager.register_surface m wid).2.next_surface_id) := by
  unfold SurfaceManager.handle_surface_commit
  cases hfind : assocFind m.surface_mapping wid with
  | some sid =>
      cases hconv : convert_wayland_buffer buf with
      | mk res log =>
          cases res with
          | error e => simp [hconv]
          | ok sb =>
              cases hrend : m.renderer with
              | none => simp [hconv, hrend]
              | some renderer =>
                  cases sb with
                  | shm data w hh stride fmt =>
                      cases hstep : CompositorRenderer.update_surface_texture renderer sid
                          data w hh (shm_format_to_vulkan fmt) with
                      | error e => simp [hconv, hrend, hstep]
                      | ok pair =>
                          cases pair with
                          | mk renderer' gpuEvents => simp [hconv, hrend, hstep]
                  | dmabuf w hh fmt modifier fd =>
                      cases hstep : CompositorRenderer.update_surface_texture renderer sid
                          (List.replicate (w * hh * 4) 0) w hh
                          (dmabuf_format_to_vulkan fmt) with
                      | error e => simp [hconv, hrend, hstep]
                      | ok pair =>
                          cases pair with
                          | mk renderer' gpuEvents => simp [hconv, hrend, hstep]
  | none =>
      cases hconv : convert_wayland_buffer buf with
      | mk res log =>
          cases res with
          | error e => simp [hconv]
          | ok sb =>
              cases hrend : m.renderer with
              | none => simp [hconv, register_surface_renderer, hrend]
              | some renderer =>
                  cases sb with
                  | shm data w hh stride fmt =>
                      cases hstep : CompositorRenderer.update_surface_texture renderer
                          (SurfaceManager.register_surface m wid).1
                          data w hh (shm_format_to_vulkan fmt) with
                      | error e => simp [hconv, register_surface_renderer, hrend, hstep]
                      | ok pair =>
                          cases pair with
                          | mk renderer' gpuEvents =>
                              simp [hconv, register_surface_renderer, hrend, hstep]
                  | dmabuf w hh fmt modifier fd =>
                      cases hstep : CompositorRenderer.update_surface_texture renderer
                          (SurfaceManager.register_surface m wid).1
                          (List.replicate (w * hh * 4) 0) w hh
                          (dmabuf_format_to_vulkan fmt) with
                      | error e => simp [hconv, register_surface_renderer, hrend, hstep]
                      | ok pair =>
                          cases pair with
                          | mk renderer' gpuEvents =>
                              simp [hconv, register_surface_renderer, hrend, hstep]

theorem register_surface_fst (m : SurfaceManager) (wid : Nat) :
    (SurfaceManager.register_surface m wid).1 = m.next_surface_id := rfl

theorem register_surface_mapping (m : SurfaceManager) (wid : Nat) :
    (SurfaceManager.register_surface m wid).2.surface_mapping =
      assocInsert m.surface_mapping wid m.next_surface_id := rfl

/-- A commit for a Wayland surface id absent from the mapping behaves
exactly like the same commit performed after registering the id first:
the unknown id is resolved by auto-registration, never by failing. -/
theorem handle_surface_commit_unregistered_eq (m : SurfaceManager) (wid : Nat)
    (buf : WaylandBuffer) (hfind : assocFind m.surface_mapping wid = none) :
    SurfaceManager.handle_surface_commit m wid buf =
      SurfaceManager.handle_surface_commit (SurfaceManager.register_surface m wid).2
        wid buf := by
  unfold SurfaceManager.handle_surface_commit
  simp only [hfind, register_surface_mapping, assocFind_insert_self, register_surface_fst]

/-- When every connected renderer has completed `initialize_swapchain`,
`handle_surface_commit` succeeds exactly when buffer conversion does. -/
theorem handle_surface_commit_isOk_of_ready (m : SurfaceManager) (wid : Nat)
    (buf : WaylandBuffer) (hready : m.RendererReady) :
    (SurfaceManager.handle_surface_commit m wid buf).1.isOk =
      (convert_wayland_buffer buf).1.isOk := by
  unfold SurfaceManager.handle_surface_commit
  cases hfind : assocFind m.surface_mapping wid with
  | some sid =>
      cases hconv : convert_wayland_buffer buf with
      | mk res log =>
          cases res with
          | error e => simp [hconv, Except.isOk, Except.toBool]
          | ok sb =>
              cases hrend : m.renderer with
              | none => simp [hconv, hrend, Except.isOk, Except.toBool]
              | some renderer =>
                  obtain ⟨hdp, hsp⟩ := hready renderer hrend
                  cases sb with
                  | shm data w hh stride fmt =>
                      cases hstep : CompositorRenderer.update_surface_texture renderer sid
                          data w hh (shm_format_to_vulkan fmt) with
                      | error e =>
                          have := update_surface_texture_isOk renderer sid data w hh
                            (shm_format_to_vulkan fmt) hdp hsp
                          rw [hstep] at this
                          exact absurd this (by simp [Except.isOk, Except.toBool])
                      | ok pair =>
                          cases pair with
                          | mk renderer' gpuEvents =>
                              simp [hconv, hrend, hstep, Except.isOk, Except.toBool]
                  | dmabuf w hh fmt modifier fd =>
                      cases hstep : CompositorRenderer.update_surface_texture renderer sid
                          (List.replicate (w * hh * 4) 0) w hh
                          (dmabuf_format_to_vulkan fmt) with
                      | error e =>
                          have := update_surface_texture_isOk renderer sid
                            (List.replicate (w * hh * 4) 0) w hh
                            (dmabuf_format_to_vulkan fmt) hdp hsp
                          rw [hstep] at this
                          exact absurd this (by simp [Except.isOk, Except.toBool])
                      | ok pair =>
                          cases pair with
                          | mk renderer' gpuEvents =>
                              simp [hconv, hrend, hstep, Except.isOk, Except.toBool]
  | none =>
      cases hconv : convert_wayland_buffer buf with
      | mk res log =>
          cases res with
          | error e => simp [hconv, Except.isOk, Except.toBool]
          | ok sb =>
              cases hrend : m.renderer with
              | none =>
                  simp [hconv, register_surface_renderer, hrend, Except.isOk, Except.toBool]
              | some renderer =>
                  obtain ⟨hdp, hsp⟩ := hready renderer hrend
                  cases sb with
                  | shm data w hh stride fmt =>
                      cases hstep : CompositorRenderer.update_surface_texture renderer
                          (SurfaceManager.register_surface m wid).1
                          data w hh (shm_format_to_vulkan fmt) with
                      | error e =>
                          have := update_surface_texture_isOk renderer
                            (SurfaceManager.register_surface m wid).1 data w hh
                            (shm_format_to_vulkan fmt) hdp hsp
                          rw [hstep] at this
                          exact absurd this (by simp [Except.isOk, Except.toBool])
                      | ok pair =>
                          cases pair with
                          | mk renderer' gpuEvents =>
                              simp [hconv, register_surface_renderer, hrend, hstep,
                                Except.isOk, Except.toBool]
                  | dmabuf w hh fmt modifier fd =>
                      cases hstep : CompositorRenderer.update_surface_texture renderer
                          (SurfaceManager.register_surface m wid).1
                          (List.replicate (w * hh * 4) 0) w hh
                          (dmabuf_format_to_vulkan fmt) with
                      | error e =>
                          have := update_surface_texture_isOk renderer
                            (SurfaceManager.register_surface m wid).1
                            (List.replicate (w * hh * 4) 0) w hh
                            (dmabuf_format_to_vulkan fmt) hdp hsp
                          rw [hstep] at this
                          exact absurd this (by simp [Except.isOk, Except.toBool])
                      | ok pair =>
                          cases pair with
                          | mk renderer' gpuEvents =>
                              simp [hconv, register_surface_renderer, hrend, hstep,
                                Except.isOk, Except.toBool]

/-- C10: `handle_surface_commit` never fails because a surface is
unknown: a commit for a Wayland surface id absent from the mapping
auto-registers it under the fresh internal id `next_surface_id` and then
behaves exactly as a commit on the just-registered surface (so any
failure — an unconvertible buffer, or a renderer still missing its
descriptor pool or pipeline — is independent of whether the id was
known); when every connected renderer has completed
`initialize_swapchain`, the commit succeeds exactly when buffer
conversion does; and every operation (`register_surface`,
`handle_surface_commit`, `remove_surface`) preserves the invariants that
the Wayland-id-to-internal-id mapping is injective and that
`next_surface_id` is strictly greater than every internal id in the
mapping. -/
theorem handle_surface_commit_auto_register_spec (m : SurfaceManager) (wid : Nat)
    (buf : WaylandBuffer) (h : m.MappingInv) :
    (SurfaceManager.handle_surface_commit m wid buf).2.1.MappingInv ∧
    (assocFind m.surface_mapping wid = none →
      assocFind (SurfaceManager.handle_surface_commit m wid buf).2.1.surface_mapping wid =
        some m.next_surface_id ∧
      (SurfaceManager.handle_surface_commit m wid buf).2.1.next_surface_id =
        m.next_surface_id + 1) ∧
    (assocFind m.surface_mapping wid = none →
      SurfaceManager.handle_surface_commit m wid buf =
        SurfaceManager.handle_surface_commit (SurfaceManager.register_surface m wid).2
          wid buf) ∧
    (m.RendererReady →
      (SurfaceManager.handle_surface_commit m wid buf).1.isOk =
        (convert_wayland_buffer buf).1.isOk) ∧
    (∀ wid', (SurfaceManager.register_surface m wid').2.MappingInv) ∧
    (∀ wid', ((SurfaceManager.remove_surface m wid').2.1).MappingInv) := by
  obtain ⟨hmap, hnext⟩ := handle_surface_commit_cases m wid buf
  refine ⟨?_, ?_, handle_surface_commit_unregistered_eq m wid buf,
    handle_surface_commit_isOk_of_ready m wid buf,
    fun wid' => (register_surface_inv m wid' h).1,
    fun wid' => remove_surface_inv m wid' h⟩
  · cases hfind : assocFind m.surface_mapping wid with
    | some sid =>
        simp only [hfind] at hmap hnext
        exact ⟨hmap ▸ h.1, hmap ▸ h.2.1, by
          intro p hp
          rw [hnext]
          exact h.2.2 p (hmap ▸ hp)⟩
    | none =>
        simp only [hfind] at hmap hnext
        have hreg := (register_surface_inv m wid h).1
        exact ⟨hmap ▸ hreg.1, hmap ▸ hreg.2.1, by
          intro p hp
          rw [hnext]
          exact hreg.2.2 p (hmap ▸ hp)⟩
  · intro hfind
    simp only [hfind] at hmap hnext
    refine ⟨?_, hnext⟩
    rw [hmap]
    exact assocFind_insert_self m.surface_mapping wid m.next_surface_id

/-- C10 witness: committing a supported SHM buffer on the unregistered
Wayland surface 7 of a fresh manager (no renderer connected, so trivially
ready) succeeds, registers it under internal id 1, and preserves the
invariant. -/
theorem handle_surface_commit_auto_register_spec_witness :
    (SurfaceManager.handle_surface_commit SurfaceManager.new 7
        (WaylandBuffer.shm [0, 0, 0, 0] 1 1 4 WlShmFormat.argb8888)).2.1.MappingInv ∧
    assocFind (SurfaceManager.handle_surface_commit SurfaceManager.new 7
        (WaylandBuffer.shm [0, 0, 0, 0] 1 1 4 WlShmFormat.argb8888)).2.1.surface_mapping 7 =
      some 1 ∧
    (SurfaceManager.handle_surface_commit SurfaceManager.new 7
        (WaylandBuffer.shm [0, 0, 0, 0] 1 1 4 WlShmFormat.argb8888)).1.isOk =
      (convert_wayland_buffer
        (WaylandBuffer.shm [0, 0, 0, 0] 1 1 4 WlShmFormat.argb8888)).1.isOk := by
  have hinv : SurfaceManager.new.MappingInv :=
    ⟨List.nodup_nil, List.nodup_nil, by intro p hp; cases hp⟩
  have hspec := handle_surface_commit_auto_register_spec SurfaceManager.new 7
    (WaylandBuffer.shm [0, 0, 0, 0] 1 1 4 WlShmFormat.argb8888) hinv
  exact ⟨hspec.1, (hspec.2.1 rfl).1,
    hspec.2.2.2.1 (fun renderer hr => by cases hr)⟩

/-- C4: the texture cache holds at most one texture per surface id —
preserved by the commit-path update (`update_shm_texture`), by eviction
(`remove_surface_texture`) and by the placeholder DMA-BUF update — and a
commit that attaches a new buffer replaces the surface's previous
texture, destroying the old texture's view and image and freeing its
memory (the first three events of the update) before the new texture is
stored (the last event). -/
theorem update_shm_texture_unique_replace_spec (r : SurfaceRenderer) (sid : Nat)
    (data : List Nat) (w h : Nat) (fmt : ShmFormat) (hnodup : r.UniqueTextures) :
    (SurfaceRenderer.update_shm_texture r sid data w h fmt).1.UniqueTextures ∧
    (∃ t, assocFind
        (SurfaceRenderer.update_shm_texture r sid data w h fmt).1.surface_textures sid =
          some t ∧ t.width = w ∧ t.height = h ∧ t.format = shm_format_to_vulkan fmt) ∧
    (∀ old, assocFind r.surface_textures sid = some old →
      (SurfaceRenderer.update_shm_texture r sid data w h fmt).2.take 3 =
        [Event.destroyImageView old.image_view, Event.destroyImage old.image,
         Event.freeMemory old.memory] ∧
      (SurfaceRenderer.update_shm_texture r sid data w h fmt).2.getLast? =
        some (Event.storeTexture sid)) ∧
    (SurfaceRenderer.remove_surface_texture r sid).1.UniqueTextures ∧
    (∀ w' h' f', (SurfaceRenderer.update_dmabuf_texture r sid w' h' f').1.UniqueTextures) := by
  refine ⟨?_, ?_, ?_, ?_, ?_⟩
  · show (assocKeys _).Nodup
    rw [update_shm_texture_textures]
    cases hfind : assocFind r.surface_textures sid with
    | some old =>
        simp only [hfind]
        exact assocKeys_nodup_insert _ _ (assocKeys_nodup_erase sid hnodup)
    | none =>
        simp only [hfind]
        exact assocKeys_nodup_insert _ _ hnodup
  · refine ⟨⟨r.next_handle, r.next_handle + 2, r.next_handle + 1, w, h,
      shm_format_to_vulkan fmt⟩, ?_, rfl, rfl, rfl⟩
    rw [update_shm_texture_textures]
    exact assocFind_insert_self _ sid _
  · intro old hfind
    constructor <;>
      · cases fmt <;>
          simp [SurfaceRenderer.update_shm_texture, hfind,
            SurfaceRenderer.create_texture_image, SurfaceRenderer.cleanup_surface_texture,
            List.getLast?]
  · show (assocKeys _).Nodup
    unfold SurfaceRenderer.remove_surface_texture
    cases hfind : assocFind r.surface_textures sid with
    | some old => exact assocKeys_nodup_erase sid hnodup
    | none => exact hnodup
  · intro w' h' f'
    show (assocKeys _).Nodup
    cases f' <;>
      · simp only [SurfaceRenderer.update_dmabuf_texture,
          SurfaceRenderer.create_texture_image]
        exact assocKeys_nodup_insert _ _ hnodup

/-- C4 witness: in a cache holding texture (image 3, view 5, memory 4)
for surface 1, a new commit's first three events destroy the old view and
image and free the old memory, the last event stores the replacement, and
key uniqueness is preserved. -/
theorem update_shm_texture_unique_replace_spec_witness :
    (SurfaceRenderer.update_shm_texture
        ⟨[(1, ⟨3, 5, 4, 1, 1, VkFormat.b8g8r8a8Unorm⟩)], 10⟩
        1 [9, 9, 9, 9] 1 1 ShmFormat.argb8888).2.take 3 =
      [Event.destroyImageView 5, Event.destroyImage 3, Event.freeMemory 4] ∧
    (SurfaceRenderer.update_shm_texture
        ⟨[(1, ⟨3, 5, 4, 1, 1, VkFormat.b8g8r8a8Unorm⟩)], 10⟩
        1 [9, 9, 9, 9] 1 1 ShmFormat.argb8888).2.getLast? =
      some (Event.storeTexture 1) ∧
    (SurfaceRenderer.update_shm_texture
        ⟨[(1, ⟨3, 5, 4, 1, 1, VkFormat.b8g8r8a8Unorm⟩)], 10⟩
        1 [9, 9, 9, 9] 1 1 ShmFormat.argb8888).1.UniqueTextures := by
  have hspec := update_shm_texture_unique_replace_spec
    ⟨[(1, ⟨3, 5, 4, 1, 1, VkFormat.b8g8r8a8Unorm⟩)], 10⟩
    1 [9, 9, 9, 9] 1 1 ShmFormat.argb8888 (by show (assocKeys _).Nodup; decide)
  have hrepl := hspec.2.2.1 ⟨3, 5, 4, 1, 1, VkFormat.b8g8r8a8Unorm⟩ rfl
  exact ⟨hrepl.1, hrepl.2, hspec.1⟩

/-- Per-surface draw loop: when every cached surface has a vertex buffer
and a descriptor set, the loop succeeds and draws the surfaces in the
order of the cache list. -/
theorem render_surfaces_loop_spec (c : CompositorRenderer) :
    ∀ l : List (Nat × SurfaceTexture),
      (∀ p ∈ l, (assocFind c.vertex_buffers p.1).isSome ∧
        (assocFind c.descriptor_sets p.1).isSome) →
      ∃ events, CompositorRenderer.render_surfaces_loop c l = Except.ok events ∧
        drawOrder events = l.map Prod.fst := by
  intro l
  induction l with
  | nil => intro _; exact ⟨[], rfl, rfl⟩
  | cons p t ih =>
      intro hmem
      obtain ⟨hvb, hds⟩ := hmem p (List.mem_cons_self p t)
      obtain ⟨vb, hvb'⟩ := Option.isSome_iff_exists.1 hvb
      obtain ⟨ds, hds'⟩ := Option.isSome_iff_exists.1 hds
      obtain ⟨events, hloop, horder⟩ := ih (fun q hq => hmem q (List.mem_cons_of_mem p hq))
      cases p with
      | mk sid tex =>
          refine ⟨[Event.bindDescriptorSet ds, Event.pushConstants,
              Event.bindVertexBuffer vb, Event.draw sid 6] ++ events, ?_, ?_⟩
          · simp only [CompositorRenderer.render_surfaces_loop,
              CompositorRenderer.render_surface, hvb', hds', hloop]
          · simp only [drawOrder, List.filterMap_append, List.filterMap_cons,
              List.filterMap_nil, List.map_cons] at horder ⊢
            rw [horder]
            rfl

/-- C2 (amended): `render_surfaces` requires only the pipeline; it draws
exactly the surfaces present in the texture cache, in the cache's
iteration order, one six-vertex quad each, with no reference to any
spatial layout, z-order or visibility data. -/
theorem render_surfaces_cache_order_spec (c : CompositorRenderer)
    (hpipe : c.surface_pipeline = true)
    (hres : ∀ sid ∈ assocKeys c.surface_renderer.surface_textures,
      (assocFind c.vertex_buffers sid).isSome ∧ (assocFind c.descriptor_sets sid).isSome) :
    ∃ events, CompositorRenderer.render_surfaces c = Except.ok events ∧
      events.head? = some Event.bindPipeline ∧
      drawOrder events = assocKeys c.surface_renderer.surface_textures := by
  obtain ⟨events, hloop, horder⟩ := render_surfaces_loop_spec c
    c.surface_renderer.surface_textures
    (fun p hp => hres p.1 (List.mem_map_of_mem Prod.fst hp))
  refine ⟨Event.bindPipeline :: events, ?_, rfl, ?_⟩
  · simp only [CompositorRenderer.render_surfaces, SurfaceRenderer.get_all_textures,
      hpipe, Bool.not_true, Bool.false_eq_true, if_false, hloop]
  · simp only [drawOrder, List.filterMap_cons] at horder ⊢
    exact horder

/-- C2 amended witness: the state reached by commits on surfaces 1 then 2
renders successfully and draws the cache's iteration order. -/
theorem render_surfaces_cache_order_spec_witness :
    ∃ events, CompositorRenderer.render_surfaces rendererAfterTwoCommits =
        Except.ok events ∧
      events.head? = some Event.bindPipeline ∧
      drawOrder events = assocKeys rendererAfterTwoCommits.surface_renderer.surface_textures :=
  render_surfaces_cache_order_spec rendererAfterTwoCommits (by decide)
    (by intro sid hsid; fin_cases hsid <;> exact ⟨by decide, by decide⟩)

/-- C2 counterexample: after surface 1 commits and then surface 2
commits, the renderer draws surface 2 first and surface 1 second — the
cache's iteration order — so for the spatial layout that places 1 below 2
(back-to-front `[1, 2]`, both windows carrying cached textures), the
drawing order is not the back-to-front enumeration of the layout and the
higher surface is drawn before the one below it. -/
theorem render_order_counterexample :
    (∃ events, CompositorRenderer.render_surfaces rendererAfterTwoCommits =
        Except.ok events ∧ drawOrder events = [2, 1]) ∧
    (assocFind rendererAfterTwoCommits.surface_renderer.surface_textures 1).isSome = true ∧
    (assocFind rendererAfterTwoCommits.surface_renderer.surface_textures 2).isSome = true ∧
    ¬ drawsLayoutBackToFront rendererAfterTwoCommits [1, 2] := by
  refine ⟨⟨_, rfl, by decide⟩, by decide, by decide, ?_⟩
  rintro ⟨events, hok, horder⟩
  have hval : CompositorRenderer.render_surfaces rendererAfterTwoCommits =
      Except.ok [Event.bindPipeline,
        Event.bindDescriptorSet 3, Event.pushConstants, Event.bindVertexBuffer 2,
        Event.draw 2 6,
        Event.bindDescriptorSet 1, Event.pushConstants, Event.bindVertexBuffer 0,
        Event.draw 1 6] := rfl
  rw [hval] at hok
  injection hok with hev
  subst hev
  exact absurd horder (by decide)

theorem internal_update_shm_texture (r : SurfaceRenderer) (sid : Nat) (data : List Nat)
    (w h : Nat) (f : ShmFormat) :
    ∀ e ∈ (SurfaceRenderer.update_shm_texture r sid data w h f).2,
      e.is_internal = true := by
  intro e he
  cases hfind : assocFind r.surface_textures sid with
  | none =>
      simp only [SurfaceRenderer.update_shm_texture, hfind,
        SurfaceRenderer.create_texture_image, SurfaceRenderer.cleanup_surface_texture,
        List.nil_append, List.append_assoc, List.cons_append, List.mem_cons,
        List.mem_append, List.not_mem_nil, or_false, List.mem_singleton] at he
      rcases he with rfl | rfl | rfl | rfl | rfl <;> rfl
  | some old =>
      simp only [SurfaceRenderer.update_shm_texture, hfind,
        SurfaceRenderer.create_texture_image, SurfaceRenderer.cleanup_surface_texture,
        List.nil_append, List.append_assoc, List.cons_append, List.mem_cons,
        List.mem_append, List.not_mem_nil, or_false, List.mem_singleton] at he
      rcases he with rfl | rfl | rfl | rfl | rfl | rfl | rfl | rfl <;> rfl

theorem upload_mem_update_shm_texture (r : SurfaceRenderer) (sid : Nat) (data : List Nat)
    (w h : Nat) (f : ShmFormat) :
    Event.uploadTextureData r.next_handle data ∈
      (SurfaceRenderer.update_shm_texture r sid data w h f).2 := by
  cases hfind : assocFind r.surface_textures sid <;>
    simp [SurfaceRenderer.update_shm_texture, hfind,
      SurfaceRenderer.create_texture_image, SurfaceRenderer.cleanup_surface_texture]

theorem internal_update_surface_texture (c : CompositorRenderer) (sid : Nat)
    (data : List Nat) (w h : Nat) (f : VkFormat) :
    ∀ c' evs, CompositorRenderer.update_surface_texture c sid data w h f =
        Except.ok (c', evs) →
      ∀ e ∈ evs, e.is_internal = true := by
  intro c' evs heq e he
  cases f <;>
    · simp only [CompositorRenderer.update_surface_texture,
        SurfaceRenderer.update_surface_texture,
        CompositorRenderer.update_surface_vertex_buffer,
        CompositorRenderer.update_surface_descriptor_set,
        update_shm_texture_textures, assocFind_insert_self] at heq
      cases hdpc : c.descriptor_pool with
      | false => simp [hdpc] at heq
      | true =>
      cases hspc : c.surface_pipeline with
      | false => simp [hdpc, hspc] at heq
      | true =>
      cases hvb : assocFind c.vertex_buffers sid with
      | none =>
          simp only [hvb, hdpc, hspc, Bool.not_true, Bool.false_eq_true, if_false,
            Except.ok.injEq, Prod.mk.injEq] at heq
          obtain ⟨-, hevs⟩ := heq
          subst hevs
          simp only [List.nil_append, List.mem_append, List.mem_singleton] at he
          rcases he with (hup | rfl) | rfl
          · exact internal_update_shm_texture _ _ _ _ _ _ e hup
          · rfl
          · rfl
      | some vb =>
          simp only [hvb, hdpc, hspc, Bool.not_true, Bool.false_eq_true, if_false,
            Except.ok.injEq, Prod.mk.injEq] at heq
          obtain ⟨-, hevs⟩ := heq
          subst hevs
          simp only [List.cons_append, List.nil_append, List.mem_append,
            List.mem_cons, List.mem_singleton, List.not_mem_nil, or_false] at he
          rcases he with (hup | rfl | rfl) | rfl
          · exact internal_update_shm_texture _ _ _ _ _ _ e hup
          · rfl
          · rfl
          · rfl

theorem upload_mem_update_surface_texture (c : CompositorRenderer) (sid : Nat)
    (data : List Nat) (w h : Nat) (f : VkFormat) :
    ∀ c' evs, CompositorRenderer.update_surface_texture c sid data w h f =
        Except.ok (c', evs) →
      Event.uploadTextureData c.surface_renderer.next_handle data ∈ evs := by
  intro c' evs heq
  cases f <;>
    · simp only [CompositorRenderer.update_surface_texture,
        SurfaceRenderer.update_surface_texture,
        CompositorRenderer.update_surface_vertex_buffer,
        CompositorRenderer.update_surface_descriptor_set,
        update_shm_texture_textures, assocFind_insert_self] at heq
      cases hdpc : c.descriptor_pool with
      | false => simp [hdpc] at heq
      | true =>
      cases hspc : c.surface_pipeline with
      | false => simp [hdpc, hspc] at heq
      | true =>
      cases hvb : assocFind c.vertex_buffers sid <;>
        · simp only [hvb, hdpc, hspc, Bool.not_true, Bool.false_eq_true, if_false,
            Except.ok.injEq, Prod.mk.injEq] at heq
          obtain ⟨-, hevs⟩ := heq
          subst hevs
          simp only [List.mem_append]
          exact Or.inl (Or.inl (upload_mem_update_shm_texture _ _ _ _ _ _))

theorem internal_convert_wayland_buffer (buf : WaylandBuffer) :
    ∀ e ∈ (convert_wayland_buffer buf).2, e.is_internal = true := by
  intro e he
  cases buf with
  | dmabuf w h fourcc modifier =>
      cases fourcc <;> simp [convert_wayland_buffer] at he <;> subst he <;> rfl
  | shm data w h stride fmt =>
      cases fmt <;> simp [convert_wayland_buffer] at he <;> subst he <;> rfl
  | unknown => simp [convert_wayland_buffer] at he

theorem internal_handle_surface_commit (m : SurfaceManager) (wid : Nat)
    (buf : WaylandBuffer) :
    ∀ e ∈ (SurfaceManager.handle_surface_commit m wid buf).2.2,
      e.is_internal = true := by
  intro e he
  unfold SurfaceManager.handle_surface_commit at he
  cases hconv : convert_wayland_buffer buf with
  | mk res log =>
      have hlog : ∀ e, e ∈ log → e.is_internal = true := by
        intro e' he'
        exact internal_convert_wayland_buffer buf e' (by rw [hconv]; exact he')
      cases hfind : assocFind m.surface_mapping wid with
      | some sid =>
          simp only [hfind, hconv] at he
          cases res with
          | error er => exact hlog e he
          | ok sb =>
              cases hrend : m.renderer with
              | none =>
                  simp only [hrend] at he
                  exact hlog e he
              | some renderer =>
                  simp only [hrend] at he
                  cases sb with
                  | shm data w hh stride fmt =>
                      cases hstep : CompositorRenderer.update_surface_texture renderer sid
                          data w hh (shm_format_to_vulkan fmt) with
                      | error er =>
                          simp only [hstep] at he
                          exact hlog e he
                      | ok pair =>
                          cases pair with
                          | mk renderer' gpuEvents =>
                              simp only [hstep, List.mem_append] at he
                              rcases he with h1 | h2
                              · exact hlog e h1
                              · exact internal_update_surface_texture renderer sid data w hh
                                  (shm_format_to_vulkan fmt) renderer' gpuEvents hstep e h2
                  | dmabuf w hh fmt modifier fd =>
                      cases hstep : CompositorRenderer.update_surface_texture renderer sid
                          (List.replicate (w * hh * 4) 0) w hh
                          (dmabuf_format_to_vulkan fmt) with
                      | error er =>
                          simp only [hstep] at he
                          exact hlog e he
                      | ok pair =>
                          cases pair with
                          | mk renderer' gpuEvents =>
                              simp only [hstep, List.mem_append] at he
                              rcases he with h1 | h2
                              · exact hlog e h1
                              · exact internal_update_surface_texture renderer sid
                                  (List.replicate (w * hh * 4) 0) w hh
                                  (dmabuf_format_to_vulkan fmt) renderer' gpuEvents hstep e h2
      | none =>
          simp only [hfind, hconv] at he
          cases res with
          | error er => exact hlog e he
          | ok sb =>
              cases hrend : m.renderer with
              | none =>
                  simp only [register_surface_renderer, hrend] at he
                  exact hlog e he
              | some renderer =>
                  simp only [register_surface_renderer, hrend] at he
                  cases sb with
                  | shm data w hh stride fmt =>
                      cases hstep : CompositorRenderer.update_surface_texture renderer
                          (SurfaceManager.register_surface m wid).1
                          data w hh (shm_format_to_vulkan fmt) with
                      | error er =>
                          simp only [hstep] at he
                          exact hlog e he
                      | ok pair =>
                          cases pair with
                          | mk renderer' gpuEvents =>
                              simp only [hstep, List.mem_append] at he
                              rcases he with h1 | h2
                              · exact hlog e h1
                              · exact internal_update_surface_texture renderer
                                  (SurfaceManager.register_surface m wid).1 data w hh
                                  (shm_format_to_vulkan fmt) renderer' gpuEvents hstep e h2
                  | dmabuf w hh fmt modifier fd =>
                      cases hstep : CompositorRenderer.update_surface_texture renderer
                          (SurfaceManager.register_surface m wid).1
                          (List.replicate (w * hh * 4) 0) w hh
                          (dmabuf_format_to_vulkan fmt) with
                      | error er =>
                          simp only [hstep] at he
                          exact hlog e he
                      | ok pair =>
                          cases pair with
                          | mk renderer' gpuEvents =>
                              simp only [hstep, List.mem_append] at he
                              rcases he with h1 | h2
                              · exact hlog e h1
                              · exact internal_update_surface_texture renderer
                                  (SurfaceManager.register_surface m wid).1
                                  (List.replicate (w * hh * 4) 0) w hh
                                  (dmabuf_format_to_vulkan fmt) renderer' gpuEvents hstep e h2

/-- Every event of the commit hook's trace is either an internal
buffer-processing event, a frame-callback completion, or the logged
buffer-processing failure. -/
theorem commit_events_classified (st : WaylandServerState) (wid : Nat)
    (pending : SurfaceAttributes) :
    ∀ e ∈ (WaylandServerState.commit st wid pending).2,
      e.is_internal = true ∨ (∃ cb t, e = Event.frameCallbackDone cb t) ∨
      e = Event.errorLoggedBufferProcess := by
  intro e he
  unfold WaylandServerState.commit at he
  cases hbuf : pending.buffer with
  | none => simp [hbuf] at he
  | some assignment =>
      simp only [hbuf] at he
      cases assignment with
      | removed =>
          simp only [List.nil_append] at he
          rcases List.mem_map.1 he with ⟨cb, -, heq⟩
          exact Or.inr (Or.inl ⟨cb, _, heq.symm⟩)
      | newBuffer buf =>
          cases hres : SurfaceManager.handle_surface_commit st.surface_manager wid buf with
          | mk res rest =>
              cases rest with
              | mk m' events =>
                  cases res with
                  | error err =>
                      simp only [hres, List.mem_append, List.mem_singleton] at he
                      rcases he with (h1 | rfl) | h3
                      · exact Or.inl (internal_handle_surface_commit _ _ _ e
                          (by rw [hres]; exact h1))
                      · exact Or.inr (Or.inr rfl)
                      · rcases List.mem_map.1 h3 with ⟨cb, -, heq⟩
                        exact Or.inr (Or.inl ⟨cb, _, heq.symm⟩)
                  | ok u =>
                      cases u
                      simp only [hres, List.mem_append] at he
                      rcases he with h1 | h3
                      · exact Or.inl (internal_handle_surface_commit _ _ _ e
                          (by rw [hres]; exact h1))
                      · rcases List.mem_map.1 h3 with ⟨cb, -, heq⟩
                        exact Or.inr (Or.inl ⟨cb, _, heq.symm⟩)

theorem commit_no_present (st : WaylandServerState) (wid : Nat)
    (pending : SurfaceAttributes) :
    Event.presentFrame ∉ (WaylandServerState.commit st wid pending).2 := by
  intro hmem
  rcases commit_events_classified st wid pending _ hmem with h | ⟨cb, t, h⟩ | h
  · simp [Event.is_internal] at h
  · cases h
  · cases h

theorem commit_no_disconnect (st : WaylandServerState) (wid : Nat)
    (pending : SurfaceAttributes) :
    Event.disconnectClient ∉ (WaylandServerState.commit st wid pending).2 := by
  intro hmem
  rcases commit_events_classified st wid pending _ hmem with h | ⟨cb, t, h⟩ | h
  · simp [Event.is_internal] at h
  · cases h
  · cases h

theorem convert_unsupported_shm (data : List Nat) (w h stride : Nat) (f : WlShmFormat)
    (hsup : f.supported = false) :
    convert_wayland_buffer (WaylandBuffer.shm data w h stride f) =
      (Except.ok (SurfaceBuffer.shm data w h stride ShmFormat.argb8888),
       [Event.warnUnsupportedShmFormat f.code]) := by
  cases f <;> simp [WlShmFormat.supported] at hsup ⊢ <;> rfl

theorem convert_unsupported_dmabuf (w h modifier : Nat) (g : DrmFourcc)
    (hsup : g.supported = false) :
    convert_wayland_buffer (WaylandBuffer.dmabuf w h g modifier) =
      (Except.ok (SurfaceBuffer.dmabuf w h DmaBufFormat.argb8888 modifier (-1)),
       [Event.warnUnsupportedDmabufFormat g.code]) := by
  cases g <;> simp [DrmFourcc.supported] at hsup ⊢ <;> rfl

/-- When the converter yields an SHM surface buffer and a renderer is
connected, `handle_surface_commit` succeeds, its trace retains the
converter's log, and the client's bytes are uploaded unchanged. -/
theorem hsc_ok_shm_events (m : SurfaceManager) (wid : Nat)
    (renderer : CompositorRenderer) (hrend : m.renderer = some renderer)
    (hdp : renderer.descriptor_pool = true) (hsp : renderer.surface_pipeline = true)
    (buf : WaylandBuffer) (data : List Nat) (w h stride : Nat) (fmt' : ShmFormat)
    (log : List Event)
    (hconv : convert_wayland_buffer buf =
      (Except.ok (SurfaceBuffer.shm data w h stride fmt'), log)) :
    (SurfaceManager.handle_surface_commit m wid buf).1 = Except.ok () ∧
    (∀ e ∈ log, e ∈ (SurfaceManager.handle_surface_commit m wid buf).2.2) ∧
    Event.uploadTextureData renderer.surface_renderer.next_handle data ∈
      (SurfaceManager.handle_surface_commit m wid buf).2.2 := by
  unfold SurfaceManager.handle_surface_commit
  cases hfind : assocFind m.surface_mapping wid with
  | some sid =>
      simp only [hfind, hconv, hrend]
      cases hstep : CompositorRenderer.update_surface_texture renderer sid data w h
          (shm_format_to_vulkan fmt') with
      | error er =>
          have hok := update_surface_texture_isOk renderer sid data w h
            (shm_format_to_vulkan fmt') hdp hsp
          rw [hstep] at hok
          exact absurd hok (by simp [Except.isOk, Except.toBool])
      | ok pair =>
          cases pair with
          | mk renderer' gpuEvents =>
              refine ⟨rfl, ?_, ?_⟩
              · intro e he
                exact List.mem_append_left _ he
              · exact List.mem_append_right _ (upload_mem_update_surface_texture renderer sid
                  data w h (shm_format_to_vulkan fmt') renderer' gpuEvents hstep)
  | none =>
      simp only [hfind, hconv, register_surface_renderer, hrend]
      cases hstep : CompositorRenderer.update_surface_texture renderer
          (SurfaceManager.register_surface m wid).1 data w h
          (shm_format_to_vulkan fmt') with
      | error er =>
          have hok := update_surface_texture_isOk renderer
            (SurfaceManager.register_surface m wid).1 data w h (shm_format_to_vulkan fmt')
            hdp hsp
          rw [hstep] at hok
          exact absurd hok (by simp [Except.isOk, Except.toBool])
      | ok pair =>
          cases pair with
          | mk renderer' gpuEvents =>
              refine ⟨rfl, ?_, ?_⟩
              · intro e he
                exact List.mem_append_left _ he
              · exact List.mem_append_right _ (upload_mem_update_surface_texture renderer
                  (SurfaceManager.register_surface m wid).1 data w h
                  (shm_format_to_vulkan fmt') renderer' gpuEvents hstep)

/-- When the converter yields a DMA-BUF surface buffer and a renderer is
connected, `handle_surface_commit` succeeds, its trace retains the
converter's log, and a zero-filled (black) placeholder of
`width * height * 4` bytes is uploaded. -/
theorem hsc_ok_dmabuf_events (m : SurfaceManager) (wid : Nat)
    (renderer : CompositorRenderer) (hrend : m.renderer = some renderer)
    (hdp : renderer.descriptor_pool = true) (hsp : renderer.surface_pipeline = true)
    (buf : WaylandBuffer) (w h modifier : Nat) (fd : Int) (fmt' : DmaBufFormat)
    (log : List Event)
    (hconv : convert_wayland_buffer buf =
      (Except.ok (SurfaceBuffer.dmabuf w h fmt' modifier fd), log)) :
    (SurfaceManager.handle_surface_commit m wid buf).1 = Except.ok () ∧
    (∀ e ∈ log, e ∈ (SurfaceManager.handle_surface_commit m wid buf).2.2) ∧
    Event.uploadTextureData renderer.surface_renderer.next_handle
        (List.replicate (w * h * 4) 0) ∈
      (SurfaceManager.handle_surface_commit m wid buf).2.2 := by
  unfold SurfaceManager.handle_surface_commit
  cases hfind : assocFind m.surface_mapping wid with
  | some sid =>
      simp only [hfind, hconv, hrend]
      cases hstep : CompositorRenderer.update_surface_texture renderer sid
          (List.replicate (w * h * 4) 0) w h (dmabuf_format_to_vulkan fmt') with
      | error er =>
          have hok := update_surface_texture_isOk renderer sid
            (List.replicate (w * h * 4) 0) w h (dmabuf_format_to_vulkan fmt') hdp hsp
          rw [hstep] at hok
          exact absurd hok (by simp [Except.isOk, Except.toBool])
      | ok pair =>
          cases pair with
          | mk renderer' gpuEvents =>
              refine ⟨rfl, ?_, ?_⟩
              · intro e he
                exact List.mem_append_left _ he
              · exact List.mem_append_right _ (upload_mem_update_surface_texture renderer sid
                  (List.replicate (w * h * 4) 0) w h (dmabuf_format_to_vulkan fmt')
                  renderer' gpuEvents hstep)
  | none =>
      simp only [hfind, hconv, register_surface_renderer, hrend]
      cases hstep : CompositorRenderer.update_surface_texture renderer
          (SurfaceManager.register_surface m wid).1
          (List.replicate (w * h * 4) 0) w h (dmabuf_format_to_vulkan fmt') with
      | error er =>
          have hok := update_surface_texture_isOk renderer
            (SurfaceManager.register_surface m wid).1
            (List.replicate (w * h * 4) 0) w h (dmabuf_format_to_vulkan fmt') hdp hsp
          rw [hstep] at hok
          exact absurd hok (by simp [Except.isOk, Except.toBool])
      | ok pair =>
          cases pair with
          | mk renderer' gpuEvents =>
              refine ⟨rfl, ?_, ?_⟩
              · intro e he
                exact List.mem_append_left _ he
              · exact List.mem_append_right _ (upload_mem_update_surface_texture renderer
                  (SurfaceManager.register_surface m wid).1
                  (List.replicate (w * h * 4) 0) w h (dmabuf_format_to_vulkan fmt')
                  renderer' gpuEvents hstep)

/-- Trace of a commit whose buffer processing succeeds: the surface
manager's events followed by one `done` per queued frame callback. -/
theorem commit_trace_of_ok (st : WaylandServerState) (wid : Nat) (buf : WaylandBuffer)
    (dmg cbs : List Nat)
    (hok : (SurfaceManager.handle_surface_commit st.surface_manager wid buf).1 =
      Except.ok ()) :
    (WaylandServerState.commit st wid
        ⟨some (BufferAssignment.newBuffer buf), dmg, cbs⟩).2 =
      (SurfaceManager.handle_surface_commit st.surface_manager wid buf).2.2 ++
        cbs.map (fun cb => Event.frameCallbackDone cb (st.clock_ms % 2 ^ 32)) := by
  unfold WaylandServerState.commit
  cases hres : SurfaceManager.handle_surface_commit st.surface_manager wid buf with
  | mk res rest =>
      cases rest with
      | mk m' events =>
          cases res with
          | error e =>
              rw [hres] at hok
              simp at hok
          | ok u =>
              cases u
              simp [hres]

theorem commit_no_error_log_of_ok (st : WaylandServerState) (wid : Nat)
    (buf : WaylandBuffer) (dmg cbs : List Nat)
    (hok : (SurfaceManager.handle_surface_commit st.surface_manager wid buf).1 =
      Except.ok ()) :
    Event.errorLoggedBufferProcess ∉
      (WaylandServerState.commit st wid
        ⟨some (BufferAssignment.newBuffer buf), dmg, cbs⟩).2 := by
  rw [commit_trace_of_ok st wid buf dmg cbs hok]
  intro hmem
  rcases List.mem_append.1 hmem with h1 | h2
  · have := internal_handle_surface_commit _ _ _ _ h1
    simp [Event.is_internal] at this
  · rcases List.mem_map.1 h2 with ⟨cb, -, heq⟩
    cases heq

/-- C3 counterexample: committing a 1×1 SHM buffer with the unsupported
wire format `RGB565` and non-black bytes `[255, 0, 255, 255]` logs the
warning, succeeds without disconnecting the client, and uploads the
client's bytes unchanged — so the texture produced by the ARGB8888
fallback is not a black fill. -/
theorem shm_fallback_not_black_counterexample :
    Event.warnUnsupportedShmFormat WlShmFormat.rgb565.code ∈
      (WaylandServerState.commit serverState0 5 pendingUnsupportedShm).2 ∧
    Event.uploadTextureData 0 [255, 0, 255, 255] ∈
      (WaylandServerState.commit serverState0 5 pendingUnsupportedShm).2 ∧
    uploads_only_black (WaylandServerState.commit serverState0 5 pendingUnsupportedShm).2 =
      false ∧
    Event.errorLoggedBufferProcess ∉
      (WaylandServerState.commit serverState0 5 pendingUnsupportedShm).2 ∧
    Event.disconnectClient ∉
      (WaylandServerState.commit serverState0 5 pendingUnsupportedShm).2 := by
  refine ⟨by decide, by decide, by decide, by decide, by decide⟩

/-- C3 (amended): with the connected renderer in its steady state after
`initialize_swapchain` (descriptor pool and pipeline created — otherwise
the renderer update fails for every buffer, supported or not, and the
commit hook logs that failure), a commit whose buffer has an unsupported
SHM or DMA-BUF pixel format logs a warning, falls back to treating the
buffer as ARGB8888, returns success, and neither disconnects the client
nor propagates an error (no failure is even logged); but only the
DMA-BUF path uploads a black fill (as it does for every DMA-BUF buffer,
imported or not), while the SHM path uploads the client's bytes
unchanged, reinterpreted as ARGB8888. -/
theorem unsupported_format_fallback_spec (st : WaylandServerState) (wid : Nat)
    (renderer : CompositorRenderer)
    (hrend : st.surface_manager.renderer = some renderer)
    (hdp : renderer.descriptor_pool = true)
    (hsp : renderer.surface_pipeline = true) :
    (∀ (data : List Nat) (w h stride : Nat) (f : WlShmFormat) (dmg cbs : List Nat),
      f.supported = false →
      (Event.warnUnsupportedShmFormat f.code ∈
        (WaylandServerState.commit st wid
          ⟨some (BufferAssignment.newBuffer (WaylandBuffer.shm data w h stride f)),
           dmg, cbs⟩).2 ∧
       Event.uploadTextureData renderer.surface_renderer.next_handle data ∈
        (WaylandServerState.commit st wid
          ⟨some (BufferAssignment.newBuffer (WaylandBuffer.shm data w h stride f)),
           dmg, cbs⟩).2 ∧
       Event.errorLoggedBufferProcess ∉
        (WaylandServerState.commit st wid
          ⟨some (BufferAssignment.newBuffer (WaylandBuffer.shm data w h stride f)),
           dmg, cbs⟩).2 ∧
       Event.disconnectClient ∉
        (WaylandServerState.commit st wid
          ⟨some (BufferAssignment.newBuffer (WaylandBuffer.shm data w h stride f)),
           dmg, cbs⟩).2)) ∧
    (∀ (w h modifier : Nat) (g : DrmFourcc) (dmg cbs : List Nat),
      g.supported = false →
      (Event.warnUnsupportedDmabufFormat g.code ∈
        (WaylandServerState.commit st wid
          ⟨some (BufferAssignment.newBuffer (WaylandBuffer.dmabuf w h g modifier)),
           dmg, cbs⟩).2 ∧
       Event.uploadTextureData renderer.surface_renderer.next_handle
           (List.replicate (w * h * 4) 0) ∈
        (WaylandServerState.commit st wid
          ⟨some (BufferAssignment.newBuffer (WaylandBuffer.dmabuf w h g modifier)),
           dmg, cbs⟩).2 ∧
       Event.errorLoggedBufferProcess ∉
        (WaylandServerState.commit st wid
          ⟨some (BufferAssignment.newBuffer (WaylandBuffer.dmabuf w h g modifier)),
           dmg, cbs⟩).2 ∧
       Event.disconnectClient ∉
        (WaylandServerState.commit st wid
          ⟨some (BufferAssignment.newBuffer (WaylandBuffer.dmabuf w h g modifier)),
           dmg, cbs⟩).2)) := by
  constructor
  · intro data w h stride f dmg cbs hsup
    have hconv := convert_unsupported_shm data w h stride f hsup
    have hsc := hsc_ok_shm_events st.surface_manager wid renderer hrend hdp hsp
      (WaylandBuffer.shm data w h stride f) data w h stride ShmFormat.argb8888
      [Event.warnUnsupportedShmFormat f.code] hconv
    have htr := commit_trace_of_ok st wid (WaylandBuffer.shm data w h stride f)
      dmg cbs hsc.1
    refine ⟨?_, ?_, commit_no_error_log_of_ok st wid _ dmg cbs hsc.1,
      commit_no_disconnect st wid _⟩
    · rw [htr]
      exact List.mem_append_left _ (hsc.2.1 _ (List.mem_singleton.2 rfl))
    · rw [htr]
      exact List.mem_append_left _ hsc.2.2
  · intro w h modifier g dmg cbs hsup
    have hconv := convert_unsupported_dmabuf w h modifier g hsup
    have hsc := hsc_ok_dmabuf_events st.surface_manager wid renderer hrend hdp hsp
      (WaylandBuffer.dmabuf w h g modifier) w h modifier (-1) DmaBufFormat.argb8888
      [Event.warnUnsupportedDmabufFormat g.code] hconv
    have htr := commit_trace_of_ok st wid (WaylandBuffer.dmabuf w h g modifier)
      dmg cbs hsc.1
    refine ⟨?_, ?_, commit_no_error_log_of_ok st wid _ dmg cbs hsc.1,
      commit_no_disconnect st wid _⟩
    · rw [htr]
      exact List.mem_append_left _ (hsc.2.1 _ (List.mem_singleton.2 rfl))
    · rw [htr]
      exact List.mem_append_left _ hsc.2.2

/-- C3 witness: the amended claim instantiated on the concrete unsupported
SHM commit of the counterexample state. -/
theorem unsupported_format_fallback_spec_witness :
    Event.warnUnsupportedShmFormat WlShmFormat.rgb565.code ∈
      (WaylandServerState.commit serverState0 5 pendingUnsupportedShm).2 ∧
    Event.uploadTextureData 0 [255, 0, 255, 255] ∈
      (WaylandServerState.commit serverState0 5 pendingUnsupportedShm).2 :=
  ⟨((unsupported_format_fallback_spec serverState0 5 initialRenderer rfl rfl rfl).1
      [255, 0, 255, 255] 1 1 4 WlShmFormat.rgb565 [] [] rfl).1,
   ((unsupported_format_fallback_spec serverState0 5 initialRenderer rfl rfl rfl).1
      [255, 0, 255, 255] 1 1 4 WlShmFormat.rgb565 [] [] rfl).2.1⟩

/-- C1: the commit hook completes every queued frame callback
synchronously, inside `commit` itself ("fire callback immediately"), so
the callback is delivered before any frame containing the commit can be
rendered or presented — no presentation event ever occurs during a
commit, and the render/present path never dispatches callbacks. -/
theorem commit_fires_callback_before_present :
    Event.frameCallbackDone 42 1000 ∈
      (WaylandServerState.commit serverState0 5 pendingWithCallback).2 ∧
    (∀ (st : WaylandServerState) (wid : Nat) (pending : SurfaceAttributes),
      Event.presentFrame ∉ (WaylandServerState.commit st wid pending).2) :=
  ⟨by decide, fun st wid pending => commit_no_present st wid pending⟩

end Compositor
